import Mathlib

/-!
Verification development for the scan-orchestration backend
(`backend/app/services`): the process-execution harness, the error
classifier, the workspace manager, the tool adapters and the scan
orchestrator are shallowly embedded as executable Lean definitions and
the spec-level properties are settled against them.

Conventions of the embedding:
* Python strings are Lean `String`s; `None`-able strings are `Option String`.
* Filesystem paths (`pathlib.Path`) are modelled as lists of path
  segments of an absolute, already-normalised path (`PyPath`); `resolve()`
  is the identity because the model has no symlinks, and
  `is_relative_to` is segment-list prefix.
* The filesystem itself is a finite state (`FS`) of existing directories
  and files; `mkdir`/`rmtree`/`copy` act on it explicitly.
* `datetime.utcnow()` is a monotone counter threaded through the
  functions that call it.
* Exceptions are `Except`/`Option` values; a Python function that can
  raise returns an `Except`.
-/

deriving instance DecidableEq for Except

/-- Python's `str.strip()` (for the whitespace characters Lean's
`Char.isWhitespace` covers), computed on the character list so that it
reduces inside the kernel. -/
def pyStrip (s : String) : String :=
  ⟨((s.data.dropWhile Char.isWhitespace).reverse.dropWhile
      Char.isWhitespace).reverse⟩

/-- Python's `str.lower()` (ASCII case mapping), computed on the
character list. -/
def pyToLower (s : String) : String :=
  ⟨s.data.map Char.toLower⟩

/-- Python's `str.split(sep)` for a one-character separator, computed on
the character list (`"".split(sep)` gives `[""]`). -/
def splitOnChar (sep : Char) (s : String) : List String :=
  go s.data []
where
  go : List Char → List Char → List String
    | [], acc => [⟨acc.reverse⟩]
    | c :: rest, acc =>
      if c = sep then ⟨acc.reverse⟩ :: go rest [] else go rest (c :: acc)

/-- Python's `str.lstrip(chars)` for a one-character set. -/
def strDropWhile (p : Char → Bool) (s : String) : String :=
  ⟨s.data.dropWhile p⟩

/-- Join a list of strings with a separator ("/".join). -/
def strJoinSep (sep : String) : List String → String
  | [] => ""
  | [x] => x
  | x :: y :: xs => x ++ sep ++ strJoinSep sep (y :: xs)

/-- Substring test: Python's `needle in haystack`. -/
def strContains (haystack needle : String) : Bool :=
  go haystack.toList needle.toList
where
  go : List Char → List Char → Bool
    | [], n => n.isEmpty
    | c :: rest, n => n.isPrefixOf (c :: rest) || go rest n

/-- `_text` from error_classifier.py: `(value or "").strip()`. -/
def pyText (value : Option String) : String :=
  pyStrip (value.getD "")

/-- `_lower` from error_classifier.py: `_text(value).lower()`. -/
def pyLower (value : Option String) : String :=
  pyToLower (pyText value)

/-- `_contains_any` from error_classifier.py. -/
def containsAny (haystack : String) (needles : List String) : Bool :=
  needles.any (fun n => strContains haystack n)

/-- Python `a or b` for an optional string: `None` and `""` are falsy. -/
def pyOrStr (a : Option String) (b : String) : String :=
  match a with
  | some s => if s = "" then b else s
  | none => b

/-! ## Process execution harness (`app/services/tools/base.py`) -/

/-- `ToolResult` from base.py (timestamps and the captured-stream/artifact
paths are kept as plain data; the fields not needed by any claim are kept
for shape fidelity but carry model values). -/
structure ToolResult where
  success : Bool
  output : String
  error : Option String := none
  return_code : Option Int := none
  command : Option (List String) := none
  stdout_path : Option String := none
  stderr_path : Option String := none
  started_at : Option Nat := none
  finished_at : Option Nat := none
  duration_seconds : Option Int := none
  parsing_error : Option String := none
  failure_reason : Option String := none
  artifacts_path : Option String := none
  tool_version : Option String := none
deriving DecidableEq, Repr

/-- Outcome of the underlying `subprocess.run` call: the process either
completes with an exit code and captured streams, exceeds the time bound
(`subprocess.TimeoutExpired`, with whatever partial streams were written),
or fails to spawn (`OSError`). Which case occurs is an input of the model;
`run_command` maps it to a `ToolResult` exactly as base.py does. -/
inductive ProcOutcome
  | completed (returncode : Int) (stdoutText stderrText : String)
  | timedOut (stdoutText stderrText : String)
  | spawnError (msg : String) (stdoutText : String)
deriving DecidableEq, Repr

/-- `run_command` from base.py, lines 74-163.  `t0`/`t1` model the
`datetime.utcnow()` readings at start and finish; the log-file paths are
abstracted to fixed relative names under the log dir. -/
def run_command (cmd : List String) (logDir : String) (t0 t1 : Nat)
    (outcome : ProcOutcome) : ToolResult :=
  match outcome with
  | .completed rc out err =>
      { success := rc == 0
        output := out
        error := if err = "" then none else some err
        return_code := some rc
        command := some cmd
        stdout_path := some (logDir ++ "/stdout.log")
        stderr_path := some (logDir ++ "/stderr.log")
        started_at := some t0
        finished_at := some t1
        duration_seconds := some ((t1 : Int) - (t0 : Int))
        artifacts_path := some logDir
        failure_reason := none }
  | .timedOut out _ =>
      { success := false
        output := out
        error := some "timeout"
        return_code := none
        command := some cmd
        stdout_path := some (logDir ++ "/stdout.log")
        stderr_path := some (logDir ++ "/stderr.log")
        started_at := some t0
        finished_at := some t1
        duration_seconds := some ((t1 : Int) - (t0 : Int))
        artifacts_path := some logDir
        failure_reason := some "timeout" }
  | .spawnError msg out =>
      { success := false
        output := out
        error := some msg
        return_code := none
        command := some cmd
        stdout_path := some (logDir ++ "/stdout.log")
        stderr_path := some (logDir ++ "/stderr.log")
        started_at := some t0
        finished_at := some t1
        duration_seconds := some ((t1 : Int) - (t0 : Int))
        artifacts_path := some logDir
        failure_reason := some "process-spawn-error" }

/-! ## Error classifier (`app/services/diagnostics/error_classifier.py`) -/

/-- `classify_tool_failure` from error_classifier.py, lines 56-182,
translated cascade-for-cascade (the `tool` argument is unused by the
source body as well). -/
def classify_tool_failure (_tool : String) (result : ToolResult) : String :=
  let stdout := pyLower (some result.output)
  let stderr := pyLower result.error
  let combined := stdout ++ "\n" ++ stderr
  let rc := result.return_code
  let parsingError := pyText result.parsing_error
  let existingReason := pyText result.failure_reason
  -- 1) Respect explicit timeout/crash markers from the runner layer
  if existingReason = "timeout" ∨ existingReason = "process-spawn-error" then
    existingReason
  -- 2) Timeouts
  else if strContains stderr "timeout" || strContains stderr "timed out" then
    "tool-timeout"
  -- 3) Parsing / JSON issues
  else if parsingError ≠ "" then
    "tool-output-parse-error"
  -- 4) Docker-specific issues
  else if containsAny combined
      ["cannot connect to the docker daemon",
       "is the docker daemon running",
       "permission denied while trying to connect to the docker daemon"] then
    "docker-daemon-unavailable"
  else if strContains combined "no such file or directory: 'docker'"
      || strContains combined "docker: not found" then
    "docker-binary-not-found"
  else if containsAny combined
      ["pull access denied for",
       "repository does not exist",
       "manifest unknown",
       "no such image"] then
    "docker-image-not-found"
  -- 5) Compilation / build issues
  else if containsAny combined
      ["compilererror",
       "parsererror",
       "typeerror",
       "syntaxerror",
       "could not compile",
       "failed to compile",
       "compile error",
       "error while compiling"] then
    "tool-compilation-error"
  else if containsAny combined
      ["forge build failed",
       "failed to build",
       "build failed",
       "error: could not compile"] then
    "tool-build-error"
  else if containsAny combined
      ["echidna-test: command not found",
       "echidna: command not found"] then
    "tool-not-found"
  else if strContains combined "slither: command not found" then
    "tool-not-found"
  else if containsAny combined
      ["forge: command not found",
       "foundry: command not found"] then
    "tool-not-found"
  -- 6) Generic runtime/tool errors
  else if containsAny combined
      ["runtime error",
       "panic:",
       "stack trace:",
       "segmentation fault",
       "segfault"] then
    "tool-runtime-error"
  -- 7) Non-zero exit without a more specific classification
  else if rc ≠ none ∧ rc ≠ some 0 then
    "tool-non-zero-exit"
  -- 8) Fall back to existing reason or unknown
  else if existingReason ≠ "" then
    existingReason
  else
    "unknown-error"

/-! ## Workspace manager (`app/services/scanner/workspace.py`) -/

/-- An absolute filesystem path, as its list of segments (already
normalised; the model has no symlinks, so `Path.resolve()` is the
identity). -/
abbrev PyPath := List String

/-- `Path.name`: the final path component, `""` for the root. -/
def pathName (p : PyPath) : String :=
  (p.getLast?).getD ""

/-- Segment-list prefix test, Python `Path.is_relative_to` /
the success case of `Path.relative_to`. -/
def pathIsRelativeTo (p root : PyPath) : Bool :=
  root.isPrefixOf p

/-- `Path.relative_to(root)`: the remaining segments when `root` is a
prefix, otherwise `none` (Python raises `ValueError`). -/
def pathRelativeTo (p root : PyPath) : Option (List String) :=
  if root.isPrefixOf p then some (p.drop root.length) else none

/-- `PurePath.as_posix()` of a relative path given by its segments
(`Path(".")` has no segments and renders as `"."`). -/
def relAsPosix (segs : List String) : String :=
  if segs = [] then "." else strJoinSep "/" segs

/-- Python error values that the workspace code can raise. -/
inductive PyErr
  | attributeError (msg : String)
  | fileNotFoundError (msg : String)
deriving DecidableEq, Repr

/-- `str(exc)` of a raised `PyErr`. -/
def PyErr.message : PyErr → String
  | .attributeError m => m
  | .fileNotFoundError m => m

/-- Calling `.as_posix()` on a value that is a `str` (not a `Path`):
`str` has no such attribute, so Python raises `AttributeError`. -/
def strAsPosix (_s : String) : Except PyErr String :=
  .error (.attributeError "'str' object has no attribute 'as_posix'")

/-- The filesystem state: which directories and which files exist. -/
structure FS where
  dirs : List PyPath
  files : List PyPath
deriving DecidableEq, Repr

/-- `Path.exists()`. -/
def FS.pathExists (fs : FS) (p : PyPath) : Bool :=
  fs.dirs.contains p || fs.files.contains p

/-- `p.mkdir(parents=True, exist_ok=True)` (the model tracks the
directory itself; implied parents are not enumerated separately). -/
def FS.mkdirp (fs : FS) (p : PyPath) : FS :=
  if fs.dirs.contains p then fs else { fs with dirs := fs.dirs ++ [p] }

/-- Is `q` strictly below `p`? -/
def pathStrictlyUnder (p q : PyPath) : Bool :=
  p.isPrefixOf q && q ≠ p

/-- `_clear_directory` from workspace.py, lines 100-107: remove every
child of `p` (recursively), keeping `p` itself. -/
def clear_directory (fs : FS) (p : PyPath) : FS :=
  { dirs := fs.dirs.filter (fun d => !(pathStrictlyUnder p d)),
    files := fs.files.filter (fun f => !(pathStrictlyUnder p f)) }

/-- `shutil.copytree(src, dst, dirs_exist_ok=True)`: every entry below
`src` reappears below `dst`. -/
def copy_tree (fs : FS) (src dst : PyPath) : FS :=
  let remap := fun (p : PyPath) => dst ++ p.drop src.length
  { dirs := fs.dirs ++
      (fs.dirs.filter (fun d => pathStrictlyUnder src d)).map remap,
    files := fs.files ++
      (fs.files.filter (fun f => pathStrictlyUnder src f)).map remap }

/-- `shutil.copy2(src, dst)` for a single file `src` copied to path `dst`. -/
def copy_file (fs : FS) (dst : PyPath) : FS :=
  { fs with files := fs.files ++ [dst] }

/-- `Workspace` dataclass from workspace.py. -/
structure Workspace where
  root : PyPath
  contracts_dir : PyPath
  logs_dir : PyPath
  artifacts_dir : PyPath
  tmp_dir : PyPath
deriving DecidableEq, Repr

/-- `Workspace.ensure_created` from workspace.py, lines 42-50. -/
def Workspace.ensure_created (ws : Workspace) (fs : FS) : FS :=
  ((((fs.mkdirp ws.root).mkdirp ws.contracts_dir).mkdirp
      ws.logs_dir).mkdirp ws.artifacts_dir).mkdirp ws.tmp_dir

/-- `Workspace.path_relative_to_root` from workspace.py, lines 52-64.
The `except ValueError` branch binds `rel` to `path.name`, which is a
`str`; the subsequent `rel.as_posix()` is then an attribute error. -/
def Workspace.path_relative_to_root (ws : Workspace) (path : PyPath) :
    Except PyErr String :=
  match pathRelativeTo path ws.root with
  | some rel => .ok (relAsPosix rel)
  | none => strAsPosix (pathName path)

/-- `build_workspace_root` from workspace.py, lines 67-76
(`settings.workspace_root` is the first argument). -/
def build_workspace_root (workspaceRoot : PyPath)
    (projectId scanId : String) : PyPath :=
  workspaceRoot ++ [projectId, scanId]

/-- `create_workspace` from workspace.py, lines 79-97. -/
def create_workspace (workspaceRoot : PyPath) (projectId scanId : String)
    (fs : FS) : Workspace × FS :=
  let root := build_workspace_root workspaceRoot projectId scanId
  let ws : Workspace :=
    { root := root
      contracts_dir := root ++ ["contracts"]
      logs_dir := root ++ ["logs"]
      artifacts_dir := root ++ ["artifacts"]
      tmp_dir := root ++ ["tmp"] }
  (ws, ws.ensure_created fs)

/-- `materialize_project_sources` from workspace.py, lines 110-150.
Returns the updated filesystem and either the effective project root or
the `FileNotFoundError`.  `expanduser()` is the identity in the model
(no `~` paths) and `resolve()` is the identity (no symlinks). -/
def materialize_project_sources (projectPath : PyPath) (ws : Workspace)
    (fs : FS) : FS × Except PyErr PyPath :=
  let source := projectPath
  let fs := ws.ensure_created fs
  let fs := fs.mkdirp ws.contracts_dir
  if pathIsRelativeTo source ws.root then
    -- Already inside the workspace; nothing to copy.
    (fs, .ok source)
  else if !(fs.pathExists source) then
    (fs, .error (.fileNotFoundError
      ("Project path '" ++ relAsPosix source ++
        "' does not exist inside the backend container.")))
  else
    let fs := clear_directory fs ws.contracts_dir
    if fs.dirs.contains source then
      (copy_tree fs source ws.contracts_dir, .ok ws.contracts_dir)
    else
      (copy_file fs (ws.contracts_dir ++ [pathName source]), .ok ws.contracts_dir)

/-! ## ORM data model (`app/models/__init__.py`) -/

/-- `ScanStatus` enum. -/
inductive ScanStatus
  | PENDING | RUNNING | SUCCESS | FAILED
deriving DecidableEq, Repr

/-- `ToolExecutionStatus` enum. -/
inductive ToolExecutionStatus
  | PENDING | RUNNING | SUCCEEDED | FAILED | RETRYING
deriving DecidableEq, Repr

/-- `.value` of a `ToolExecutionStatus`. -/
def ToolExecutionStatus.value : ToolExecutionStatus → String
  | .PENDING => "PENDING"
  | .RUNNING => "RUNNING"
  | .SUCCEEDED => "SUCCEEDED"
  | .FAILED => "FAILED"
  | .RETRYING => "RETRYING"

/-- `Project` row (the fields the orchestrator reads; `name`, `meta` and
`created_at` play no role in any claim). -/
structure ProjectRec where
  id : String
  path : PyPath
deriving DecidableEq, Repr

/-- One entry of the logs snapshot (a JSON object; a key that the code
did not put into the object is `none`).  The synthetic load-failure entry
carries only `tool`, `status` and `error`. -/
structure LogEntry where
  tool : String
  status : Option String := none
  attempt : Option Nat := none
  exit_code : Option Int := none
  error : Option String := none
  failure_reason : Option String := none
  stdout_path : Option String := none
  stderr_path : Option String := none
  artifacts_path : Option String := none
  findings_count : Option Nat := none
  started_at : Option Nat := none
  finished_at : Option Nat := none
  duration_seconds : Option Int := none
deriving DecidableEq, Repr

/-- `Scan` row (fields the orchestrator reads/writes; `name`, `chain`,
`meta`, `created_at` are omitted as they play no role in any claim).
`logs` holds the decoded form of the JSON snapshot string. -/
structure ScanRec where
  id : String
  project_id : String
  target : Option String
  tools : List String
  status : ScanStatus
  logs : Option (List LogEntry) := none
  started_at : Option Nat := none
  finished_at : Option Nat := none
deriving DecidableEq, Repr

/-- `ToolExecution` row (`environment`, `input_seed`, `coverage`,
`assertions` omitted: no claim touches them). -/
structure ToolExecutionRec where
  id : Nat
  scan_id : String
  tool : String
  status : ToolExecutionStatus
  attempt : Nat
  started_at : Option Nat := none
  finished_at : Option Nat := none
  duration_seconds : Option Int := none
  command : Option (List String) := none
  exit_code : Option Int := none
  stdout_path : Option String := none
  stderr_path : Option String := none
  artifacts_path : Option String := none
  error : Option String := none
  parsing_error : Option String := none
  failure_reason : Option String := none
  findings_count : Nat := 0
  tool_version : Option String := none
deriving DecidableEq, Repr

/-- The persistent store: project, scan and tool-execution tables plus
the id source for newly inserted tool executions. -/
structure DB where
  projects : List ProjectRec
  scans : List ScanRec
  executions : List ToolExecutionRec
  nextExecId : Nat
deriving DecidableEq, Repr

/-- Committing a mutated `Scan` ORM row: the row with that primary key
now holds the new field values. -/
def DB.replaceScan (db : DB) (s : ScanRec) : DB :=
  { db with scans := db.scans.map (fun x => if x.id = s.id then s else x) }

/-- Committing a mutated `ToolExecution` ORM row. -/
def DB.replaceExec (db : DB) (e : ToolExecutionRec) : DB :=
  { db with executions := db.executions.map (fun x => if x.id = e.id then e else x) }

/-! ## Tool adapters (`app/services/tools/slither_tool.py`,
`app/services/tools/echidna_tool.py`) -/

/-- `Path(...).parts` of the relative path obtained from a user string:
splitting on `/`, `pathlib` drops empty and `"."` components. -/
def pathParts (s : String) : List String :=
  (splitOnChar '/' s).filter (fun seg => decide (seg ≠ "" ∧ seg ≠ "."))

namespace SlitherTool

/-- `_resolve_container_target` from slither_tool.py, lines 95-134.
`projectRootName` is `project_root.name`; the container root is passed
explicitly (the adapter passes `"/project"`). -/
def resolve_container_target (containerRoot : String)
    (scanTarget : Option String) (projectRootName : String) : String :=
  let rawTarget := pyStrip (scanTarget.getD "")
  if rawTarget = "" ∨ rawTarget = "." ∨ rawTarget = "/" then containerRoot
  else
    let rel := pathParts (strDropWhile (fun c => c = '/') rawTarget)
    let rel :=
      match rel with
      | p0 :: restSegs => if p0 = projectRootName then restSegs else p0 :: restSegs
      | [] => []
    if rel = [] then containerRoot
    else containerRoot ++ "/" ++ strJoinSep "/" rel

end SlitherTool

namespace EchidnaTool

/-- `_resolve_container_target` from echidna_tool.py, lines 92-130
(textually the same logic as the Slither adapter's copy). -/
def resolve_container_target (containerRoot : String)
    (scanTarget : Option String) (projectRootName : String) : String :=
  let rawTarget := pyStrip (scanTarget.getD "")
  if rawTarget = "" ∨ rawTarget = "." ∨ rawTarget = "/" then containerRoot
  else
    let rel := pathParts (strDropWhile (fun c => c = '/') rawTarget)
    let rel :=
      match rel with
      | p0 :: restSegs => if p0 = projectRootName then restSegs else p0 :: restSegs
      | [] => []
    if rel = [] then containerRoot
    else containerRoot ++ "/" ++ strJoinSep "/" rel

end EchidnaTool

/-- Abstraction of the adapter's success-branch `try` block: `json.loads`
on the captured stdout followed by the finding-extraction loop.  On valid
JSON it yields the number of normalized findings handed to
`store_normalized_findings` (their contents are not inspected by any
claim); on invalid JSON it yields the `json.JSONDecodeError` message
(`str(exc)`, always a non-empty rendering). -/
abbrev JsonParse := String → Except String Nat

namespace SlitherTool

/-- The execution-record updates performed by `SlitherToolRunner.run`
(slither_tool.py, lines 205-256) after the harness returned `result`.
The stream-path fields are carried over as the harness strings (the
source stores their workspace-relative renderings; no claim reads them). -/
def run_update (image : String) (jsonParse : JsonParse) (result : ToolResult)
    (e : ToolExecutionRec) : ToolExecutionRec :=
  -- 3. Populate execution metadata
  let e := { e with
    command := result.command
    exit_code := result.return_code
    stdout_path := result.stdout_path
    stderr_path := result.stderr_path
    error := result.error
    parsing_error := result.parsing_error
    artifacts_path := result.artifacts_path
    tool_version := some (pyOrStr result.tool_version ("docker:" ++ image)) }
  -- Classify failure if tool did not succeed
  let e := if !result.success then
      { e with failure_reason := some (classify_tool_failure "slither" result) }
    else e
  -- 4. Parse Slither JSON output into NormalizedFinding
  let (result, e, findingsCount) :=
    if result.success && result.output ≠ "" then
      match jsonParse result.output with
      | .ok n => (result, e, n)
      | .error msg =>
        let result := { result with parsing_error := some msg }
        (result,
         { e with
            parsing_error := some msg
            failure_reason := some (classify_tool_failure "slither" result) },
         0)
    else (result, e, 0)
  -- 5. Persist findings & final status
  { e with
     findings_count := findingsCount
     status := if result.success then ToolExecutionStatus.SUCCEEDED
       else ToolExecutionStatus.FAILED }

end SlitherTool

namespace EchidnaTool

/-- The execution-record updates performed by `EchidnaToolRunner.run`
(echidna_tool.py, lines 207-254); same shape as the Slither adapter, with
the Echidna image name and findings extraction. -/
def run_update (image : String) (jsonParse : JsonParse) (result : ToolResult)
    (e : ToolExecutionRec) : ToolExecutionRec :=
  let e := { e with
    command := result.command
    exit_code := result.return_code
    stdout_path := result.stdout_path
    stderr_path := result.stderr_path
    error := result.error
    parsing_error := result.parsing_error
    artifacts_path := result.artifacts_path
    tool_version := some (pyOrStr result.tool_version ("docker:" ++ image)) }
  let e := if !result.success then
      { e with failure_reason := some (classify_tool_failure "echidna" result) }
    else e
  let (result, e, findingsCount) :=
    if result.success && result.output ≠ "" then
      match jsonParse result.output with
      | .ok n => (result, e, n)
      | .error msg =>
        let result := { result with parsing_error := some msg }
        (result,
         { e with
            parsing_error := some msg
            failure_reason := some (classify_tool_failure "echidna" result) },
         0)
    else (result, e, 0)
  { e with
     findings_count := findingsCount
     status := if result.success then ToolExecutionStatus.SUCCEEDED
       else ToolExecutionStatus.FAILED }

end EchidnaTool

/-! ## Scan orchestrator (`app/services/scanner/runner.py`) -/

/-- `ScanContext` dataclass from runner.py. -/
structure ScanContext where
  project : ProjectRec
  scan : ScanRec
  workspace : Workspace
  project_root : PyPath
deriving DecidableEq, Repr

/-- A concrete tool runner's `run`: given the execution row as the
orchestrator handed it over, the field values the row holds when `run`
returns or raises, plus the escaped exception message if one was raised
(`none` when `run` returned normally). -/
structure AdapterResult where
  exec : ToolExecutionRec
  exc : Option String
deriving DecidableEq, Repr

/-- Behaviour of one registered tool runner. -/
abbrev AdapterFn := ToolExecutionRec → AdapterResult

/-- One `datetime.utcnow()` reading from the threaded clock: the current
instant plus the advanced clock. -/
def tickNow (t : Nat) : Nat × Nat := (t, t + 1)

/-- `_load_scan_context` from runner.py, lines 79-102.  The error string
is the `str(exc)` of the raised exception: `ValueError` when the scan row
is missing, `AttributeError` when the project row is missing (in the
source, `scan.project` is then `None` and `project.id` raises), or the
`FileNotFoundError` from `materialize_project_sources`.  Filesystem
effects made before a failure persist, so the filesystem is returned in
both cases. -/
def load_scan_context (workspaceRoot : PyPath) (db : DB) (scanId : String)
    (fs : FS) : FS × Except String ScanContext :=
  match db.scans.find? (fun s => decide (s.id = scanId)) with
  | none => (fs, .error ("Scan " ++ scanId ++ " not found"))
  | some scan =>
    match db.projects.find? (fun p => decide (p.id = scan.project_id)) with
    | none => (fs, .error "'NoneType' object has no attribute 'id'")
    | some project =>
      let wsfs := create_workspace workspaceRoot project.id scan.id fs
      let mfs := materialize_project_sources project.path wsfs.1 wsfs.2
      match mfs.2 with
      | .error e => (mfs.1, .error e.message)
      | .ok projectRoot =>
        (mfs.1, .ok { project := project, scan := scan,
                      workspace := wsfs.1, project_root := projectRoot })

/-- The tool names of the scan's existing ToolExecution rows: the key
set of `existing_by_tool` in `_ensure_tool_executions` (runner.py, lines
111-116), computed once before the insertion loop. -/
def existing_tools (db : DB) (scanId : String) : List String :=
  (db.executions.filter (fun te => decide (te.scan_id = scanId))).map
    (fun te => te.tool)

/-- The body of the insertion loop of `_ensure_tool_executions`
(runner.py, lines 118-129): skip a tool already in the pre-computed
`existing_by_tool` snapshot, otherwise insert a fresh PENDING row. -/
def ensure_step (existingTools : List String) (scanId : String)
    (db' : DB) (toolName : String) : DB :=
  if existingTools.contains toolName then db'
  else
    { db' with
      executions := db'.executions ++
        [{ id := db'.nextExecId, scan_id := scanId, tool := toolName,
           status := ToolExecutionStatus.PENDING, attempt := 0,
           findings_count := 0 }],
      nextExecId := db'.nextExecId + 1 }

/-- `_ensure_tool_executions` from runner.py, lines 105-130.  The map of
existing rows is built once, before the insertion loop, exactly as in the
source. -/
def ensure_tool_executions (db : DB) (scan : ScanRec) : DB :=
  scan.tools.foldl (ensure_step (existing_tools db scan.id) scan.id) db

/-- Insert into a sorted list (structural recursion, so it reduces
inside the kernel). -/
def insertSorted {α : Type _} (le : α → α → Bool) (x : α) :
    List α → List α
  | [] => [x]
  | y :: ys => if le x y then x :: y :: ys else y :: insertSorted le x ys

/-- Stable insertion sort. -/
def sortBy {α : Type _} (le : α → α → Bool) (l : List α) : List α :=
  l.foldr (insertSorted le) []

/-- Lexicographic order on strings (code-point order, computed on the
character lists so that it reduces inside the kernel). -/
def strLe (a b : String) : Bool :=
  go a.data b.data
where
  go : List Char → List Char → Bool
    | [], _ => true
    | _ :: _, [] => false
    | c :: cs, d :: ds => if c = d then go cs ds else decide (c < d)

/-- The per-scan execution query of runner.py (lines 211-216 and
135-140): rows of the scan ordered by tool name ascending. -/
def executions_sorted (db : DB) (scanId : String) : List ToolExecutionRec :=
  sortBy (fun a b => strLe a.tool b.tool)
    (db.executions.filter (fun te => decide (te.scan_id = scanId)))

/-- One snapshot object of `_build_logs_snapshot` (runner.py, lines
142-160). -/
def toLogEntry (e : ToolExecutionRec) : LogEntry :=
  { tool := e.tool
    status := some e.status.value
    attempt := some e.attempt
    exit_code := e.exit_code
    error := e.error
    failure_reason := e.failure_reason
    stdout_path := e.stdout_path
    stderr_path := e.stderr_path
    artifacts_path := e.artifacts_path
    findings_count := some e.findings_count
    started_at := e.started_at
    finished_at := e.finished_at
    duration_seconds := e.duration_seconds }

/-- `_build_logs_snapshot` from runner.py, lines 133-161 (the decoded
form of the JSON string it produces). -/
def build_logs_snapshot (db : DB) (scanId : String) : List LogEntry :=
  (executions_sorted db scanId).map toLogEntry

/-- Lines 234-240 of runner.py: mark the execution RUNNING for this
attempt, bump the attempt counter and stamp `started_at` if unset. -/
def mark_execution_running (t : Nat) (e : ToolExecutionRec) :
    Nat × ToolExecutionRec :=
  let e := { e with status := ToolExecutionStatus.RUNNING, attempt := e.attempt + 1 }
  match e.started_at with
  | none =>
    let nt := tickNow t
    (nt.2, { e with started_at := some nt.1 })
  | some _ => (t, e)

/-- Lines 244-248 of runner.py: the `except` handler converting an
escaped adapter exception into a FAILED state, keeping an already-set
failure reason. -/
def handle_runner_exception (e : ToolExecutionRec) (exc : Option String) :
    ToolExecutionRec :=
  match exc with
  | some msg =>
    { e with
      status := ToolExecutionStatus.FAILED
      error := some msg
      failure_reason := some (pyOrStr e.failure_reason "runner_exception") }
  | none => e

/-- Lines 250-261 of runner.py: stamp `finished_at`, compute the duration
if the adapter did not, and default a non-terminal status to SUCCEEDED. -/
def finalize_execution (t : Nat) (e : ToolExecutionRec) :
    Nat × ToolExecutionRec :=
  let nt := tickNow t
  let finishedAt := nt.1
  let e := { e with finished_at := some finishedAt }
  let e :=
    if e.started_at.isSome ∧ e.duration_seconds = none then
      { e with duration_seconds := some ((finishedAt : Int) - (e.started_at.getD 0 : Int)) }
    else e
  let e :=
    if e.status ≠ ToolExecutionStatus.SUCCEEDED ∧
        e.status ≠ ToolExecutionStatus.FAILED then
      { e with status := ToolExecutionStatus.SUCCEEDED }
    else e
  (nt.2, e)

/-- The body of the per-execution loop of `run_scan_sync` (runner.py,
lines 218-264), as a fold step over the row ids of the query result.
State: current database, clock, committed snapshots so far.  The row's
ORM identity is fixed: whatever the adapter does, it mutates the fields
of the same row, so the adapter's resulting record is pinned back to the
row's key columns. -/
def process_execution (runners : String → Option AdapterFn)
    (st : DB × Nat × List DB) (execId : Nat) : DB × Nat × List DB :=
  let db := st.1
  let t := st.2.1
  let commits := st.2.2
  match db.executions.find? (fun e => decide (e.id = execId)) with
  | none => (db, t, commits)
  | some e =>
    match runners e.tool with
    | none =>
      -- Unsupported tool requested; mark as a deterministic failure.
      let nt := tickNow t
      let now := nt.1
      let e := { e with
        status := ToolExecutionStatus.FAILED
        failure_reason := some "unsupported_tool"
        attempt := e.attempt + 1
        started_at := some (e.started_at.getD now)
        finished_at := some now
        duration_seconds := some (e.duration_seconds.getD 0) }
      let db := db.replaceExec e
      (db, nt.2, commits ++ [db])
    | some runner =>
      let mt := mark_execution_running t e
      let t := mt.1
      let e1 := mt.2
      let db := db.replaceExec e1
      let commits := commits ++ [db]
      let ar := runner e1
      let e2 := { ar.exec with id := e1.id, scan_id := e1.scan_id, tool := e1.tool }
      let e2 := handle_runner_exception e2 ar.exc
      let ft := finalize_execution t e2
      let db := db.replaceExec ft.2
      (db, ft.1, commits ++ [db])

/-- The committed state of the outcome of one `run_scan_sync` call:
final database, final filesystem, and every database snapshot that was
committed during the call, in order. -/
structure RunOutcome where
  db : DB
  fs : FS
  commits : List DB
deriving DecidableEq, Repr

/-- Lines 202-206 of runner.py: set the scan RUNNING and stamp
`started_at` only if unset. -/
def mark_scan_running (t : Nat) (scan : ScanRec) : Nat × ScanRec :=
  let scan := { scan with status := ScanStatus.RUNNING }
  match scan.started_at with
  | none =>
    let nt := tickNow t
    (nt.2, { scan with started_at := some nt.1 })
  | some _ => (t, scan)

/-- The body of `run_scan_sync` after a successful context load
(runner.py, lines 200-281): mark the scan RUNNING, bootstrap the
executions, drive the per-execution loop, finalize the scan.  `fs1` is
the filesystem as the load left it. -/
def run_scan_ok (_scanId : String)
    (runners : String → Option AdapterFn) (db0 : DB) (fs1 : FS)
    (ctx : ScanContext) : RunOutcome :=
    -- Mark scan as running (only first time)
    let st1 := mark_scan_running 0 ctx.scan
    let t := st1.1
    let scan1 := st1.2
    let db1 := db0.replaceScan scan1
    -- Ensure ToolExecution records exist
    let db2 := ensure_tool_executions db1 scan1
    let commits := [db1, db2]
    let execIds := (executions_sorted db2 scan1.id).map (fun e => e.id)
    let looped := execIds.foldl (process_execution runners) (db2, t, commits)
    let db3 := looped.1
    let t := looped.2.1
    let commits := looped.2.2
    -- Finalize scan status based on tool results
    let successCount :=
      (db3.executions.filter (fun e =>
        decide (e.scan_id = scan1.id ∧
          e.status = ToolExecutionStatus.SUCCEEDED))).length
    let nt := tickNow t
    let scan2 := { scan1 with
      finished_at := some nt.1
      status := if successCount > 0 then ScanStatus.SUCCESS else ScanStatus.FAILED
      logs := some (build_logs_snapshot db3 scan1.id) }
    let db4 := db3.replaceScan scan2
    { db := db4, fs := fs1, commits := commits ++ [db4] }

/-- `run_scan_sync` from runner.py, lines 164-285.  `workspaceRoot` is
`settings.workspace_root`; `runners` is the `tool_runners` mapping; the
clock starts at 0 for the call. -/
def run_scan_sync (workspaceRoot : PyPath) (scanId : String)
    (runners : String → Option AdapterFn) (db0 : DB) (fs0 : FS) : RunOutcome :=
  let lofs := load_scan_context workspaceRoot db0 scanId fs0
  let fs1 := lofs.1
  match lofs.2 with
  | .error exc =>
    match db0.scans.find? (fun s => decide (s.id = scanId)) with
    | none => { db := db0, fs := fs1, commits := [] }
    | some scan =>
      let nt := tickNow 0
      let scan := { scan with
        status := ScanStatus.FAILED
        finished_at := some nt.1
        logs := some [{ tool := "runner",
                        status := some ToolExecutionStatus.FAILED.value,
                        error := some exc }] }
      let db := db0.replaceScan scan
      { db := db, fs := fs1, commits := [db] }
  | .ok ctx => run_scan_ok scanId runners db0 fs1 ctx

/-- Committed status of a scan, as a reader of the store sees it. -/
def scanStatusOf (db : DB) (scanId : String) : Option ScanStatus :=
  (db.scans.find? (fun s => decide (s.id = scanId))).map (fun s => s.status)

/-! ### A concrete three-tool scenario used by witnesses and
counterexamples: tool "t1" succeeds, tool "t2" raises, tool "t3" has no
registered adapter. -/

def demoFS : FS := { dirs := [["srcs", "proj"]], files := [] }

def demoScan : ScanRec :=
  { id := "s1", project_id := "p1", target := some ".",
    tools := ["t1", "t2", "t3"], status := ScanStatus.PENDING }

def demoDB : DB :=
  { projects := [{ id := "p1", path := ["srcs", "proj"] }],
    scans := [demoScan], executions := [], nextExecId := 0 }

/-- An adapter that raises after leaving the row untouched. -/
def demoThrower : AdapterFn := fun e => { exec := e, exc := some "boom" }

def demoRunners : String → Option AdapterFn := fun n =>
  if n = "t1" then
    some (fun e => { exec := { e with status := ToolExecutionStatus.SUCCEEDED },
                     exc := none })
  else if n = "t2" then some demoThrower
  else none

/-- A scan row whose project row is missing. -/
def demoNoProjectDB : DB :=
  { projects := [], scans := [demoScan], executions := [], nextExecId := 0 }

/-- A lone PENDING execution row for the raising adapter. -/
def demoExec : ToolExecutionRec :=
  { id := 7, scan_id := "s1", tool := "t2",
    status := ToolExecutionStatus.PENDING, attempt := 0 }

def demoExecDB : DB :=
  { projects := [], scans := [], executions := [demoExec], nextExecId := 8 }

/-- A two-tool job under the same runner table in which every tool
fails: "t2" raises and "t3" has no registered adapter. -/
def demoAllFailScan : ScanRec :=
  { id := "s2", project_id := "p1", target := some ".",
    tools := ["t2", "t3"], status := ScanStatus.PENDING }

def demoAllFailDB : DB :=
  { projects := [{ id := "p1", path := ["srcs", "proj"] }],
    scans := [demoAllFailScan], executions := [], nextExecId := 0 }

/-! ## Theorems -/

/-- Step 1 of the classifier cascade: an explicit "timeout" or
"process-spawn-error" marker is passed through unchanged. -/
theorem classify_passthrough (tool : String) (r : ToolResult)
    (h : pyText r.failure_reason = "timeout" ∨
      pyText r.failure_reason = "process-spawn-error") :
    classify_tool_failure tool r = pyText r.failure_reason := by
  simp only [classify_tool_failure]
  rw [if_pos h]

/-- C3 (amended): the timeout step of the cascade consults only the
error/stderr text.  For a result with no pre-existing "timeout" or
"process-spawn-error" reason, if the lower-cased error text contains
"timeout" or "timed out", `classify_tool_failure` returns "tool-timeout".
A timeout phrase that appears only in the output/stdout text does not
trigger this step (see the counterexample). -/
theorem C3_stderr_timeout_classifies_as_tool_timeout (tool : String)
    (r : ToolResult)
    (h1 : pyText r.failure_reason ≠ "timeout")
    (h2 : pyText r.failure_reason ≠ "process-spawn-error")
    (h3 : (strContains (pyLower r.error) "timeout"
        || strContains (pyLower r.error) "timed out") = true) :
    classify_tool_failure tool r = "tool-timeout" := by
  simp only [classify_tool_failure]
  rw [if_neg (by rintro (hc | hc); exact h1 hc; exact h2 hc), if_pos h3]

/-- C3 witness: a failed result whose stderr reports a timeout is
classified "tool-timeout". -/
theorem C3_stderr_timeout_classifies_as_tool_timeout_witness :
    classify_tool_failure "slither"
      { success := false, output := "",
        error := some "Read timed out after 600 seconds",
        return_code := some 1 } = "tool-timeout" :=
  C3_stderr_timeout_classifies_as_tool_timeout "slither" _
    (by decide) (by decide) (by decide)

/-- C3 counterexample: a failed result whose lower-cased output+error
concatenation contains "timed out" (the phrase sits in stdout only), with
no pre-existing reason, is classified "tool-non-zero-exit", not
"tool-timeout" — the source checks `stderr` alone in its timeout step. -/
theorem C3_counterexample_timeout_phrase_only_in_stdout :
    (strContains
      (pyLower (some (ToolResult.mk false "Operation timed out" none
        (some 1) none none none none none none none none none none).output)
        ++ "\n" ++
        pyLower (ToolResult.mk false "Operation timed out" none
        (some 1) none none none none none none none none none none).error)
      "timed out" = true) ∧
    classify_tool_failure "slither"
      (ToolResult.mk false "Operation timed out" none
        (some 1) none none none none none none none none none none)
      = "tool-non-zero-exit" ∧
    classify_tool_failure "slither"
      (ToolResult.mk false "Operation timed out" none
        (some 1) none none none none none none none none none none)
      ≠ "tool-timeout" := by decide

/-- C4 (amended): a run that exceeds its time bound yields
success=false, error="timeout", failure_reason="timeout"; the classifier
passes the explicit "timeout" reason through (it returns "timeout", not
"tool-timeout"), and in particular never returns "tool-non-zero-exit",
whatever the partial streams contain. -/
theorem C4_timeout_result_never_non_zero_exit (tool : String)
    (cmd : List String) (logDir : String) (t0 t1 : Nat) (out err : String) :
    (run_command cmd logDir t0 t1 (ProcOutcome.timedOut out err)).success
        = false ∧
    (run_command cmd logDir t0 t1 (ProcOutcome.timedOut out err)).error
        = some "timeout" ∧
    (run_command cmd logDir t0 t1 (ProcOutcome.timedOut out err)).failure_reason
        = some "timeout" ∧
    classify_tool_failure tool
        (run_command cmd logDir t0 t1 (ProcOutcome.timedOut out err))
        = "timeout" ∧
    classify_tool_failure tool
        (run_command cmd logDir t0 t1 (ProcOutcome.timedOut out err))
        ≠ "tool-non-zero-exit" := by
  have hpt : pyText (run_command cmd logDir t0 t1
      (ProcOutcome.timedOut out err)).failure_reason = "timeout" := by
    show pyText (some "timeout") = "timeout"
    decide
  have hres : classify_tool_failure tool
      (run_command cmd logDir t0 t1 (ProcOutcome.timedOut out err))
      = "timeout" :=
    (classify_passthrough tool
      (run_command cmd logDir t0 t1 (ProcOutcome.timedOut out err))
      (Or.inl hpt)).trans hpt
  exact ⟨rfl, rfl, rfl, hres, by rw [hres]; decide⟩

/-- C4 counterexample: the classifier applied to a timed-out harness
result returns the passed-through "timeout", not the "tool-timeout" the
claim states. -/
theorem C4_counterexample_classifier_returns_timeout :
    classify_tool_failure "slither"
      (run_command ["docker", "run"] "logs" 0 1 (ProcOutcome.timedOut "" ""))
      = "timeout" ∧
    classify_tool_failure "slither"
      (run_command ["docker", "run"] "logs" 0 1 (ProcOutcome.timedOut "" ""))
      ≠ "tool-timeout" := by decide

/-- C6: `path_relative_to_root` renders an in-root path as a
forward-slash relative path, but for a path outside the workspace root
it raises `AttributeError` instead of returning the file name: the
fallback branch binds the `str` `path.name` and then calls
`.as_posix()` on it. -/
theorem C6_outside_root_path_raises_attribute_error :
    ((create_workspace ["workspaces"] "p1" "s1"
        { dirs := [], files := [] }).1.path_relative_to_root
      ((create_workspace ["workspaces"] "p1" "s1"
        { dirs := [], files := [] }).1.root ++ ["logs", "stdout.log"])
      = Except.ok "logs/stdout.log") ∧
    ((create_workspace ["workspaces"] "p1" "s1"
        { dirs := [], files := [] }).1.path_relative_to_root
      ["etc", "hosts"]
      = Except.error (PyErr.attributeError
          "'str' object has no attribute 'as_posix'")) := by decide

/-- `mkdir` never touches the file table. -/
theorem FS.mkdirp_files (fs : FS) (p : PyPath) : (fs.mkdirp p).files = fs.files := by
  simp only [FS.mkdirp]
  split <;> rfl

/-- `ensure_created` followed by the `contracts` `mkdir` never touches
the file table. -/
theorem ensure_created_files (ws : Workspace) (fs : FS) :
    ((ws.ensure_created fs).mkdirp ws.contracts_dir).files = fs.files := by
  simp only [Workspace.ensure_created, FS.mkdirp_files]

/-- `mkdir` never removes an existing entry. -/
theorem FS.mkdirp_exists_mono (fs : FS) (p q : PyPath)
    (h : fs.pathExists p = true) : (fs.mkdirp q).pathExists p = true := by
  simp only [FS.mkdirp]
  split
  · exact h
  · simp only [FS.pathExists, List.contains, Bool.or_eq_true, List.elem_iff,
      List.mem_append] at h ⊢
    rcases h with h | h
    · exact Or.inl (Or.inl h)
    · exact Or.inr h

/-- C7 (amended): a source that already resolves inside the workspace
root is returned unchanged with no copy and no clearing — even when it
does not exist, so no NotFound is raised for it; a source that is
outside the workspace root and does not exist raises NotFound before the
contracts directory is cleared or anything is copied, the only
filesystem effect in both cases being the idempotent creation of the
workspace directories (which happens before the check and never removes
or adds files). -/
theorem C7_materialize_sources_precondition_handling :
    (∀ (src : PyPath) (ws : Workspace) (fs : FS),
      pathIsRelativeTo src ws.root = true →
      materialize_project_sources src ws fs =
        ((ws.ensure_created fs).mkdirp ws.contracts_dir, Except.ok src)) ∧
    (∀ (src : PyPath) (ws : Workspace) (fs : FS),
      pathIsRelativeTo src ws.root = false →
      ((ws.ensure_created fs).mkdirp ws.contracts_dir).pathExists src = false →
      materialize_project_sources src ws fs =
        ((ws.ensure_created fs).mkdirp ws.contracts_dir,
         Except.error (PyErr.fileNotFoundError
           ("Project path '" ++ relAsPosix src ++
             "' does not exist inside the backend container.")))) ∧
    (∀ (ws : Workspace) (fs : FS),
      ((ws.ensure_created fs).mkdirp ws.contracts_dir).files = fs.files ∧
      ∀ p, fs.pathExists p = true →
        ((ws.ensure_created fs).mkdirp ws.contracts_dir).pathExists p = true) := by
  refine ⟨?_, ?_, ?_⟩
  · intro src ws fs h
    simp only [materialize_project_sources]
    rw [if_pos h]
  · intro src ws fs h1 h2
    simp only [materialize_project_sources]
    rw [if_neg (by simp [h1]), if_pos (by simp [h2])]
  · intro ws fs
    refine ⟨ensure_created_files ws fs, ?_⟩
    intro p hp
    simp only [Workspace.ensure_created]
    exact FS.mkdirp_exists_mono _ _ _ (FS.mkdirp_exists_mono _ _ _
      (FS.mkdirp_exists_mono _ _ _ (FS.mkdirp_exists_mono _ _ _
        (FS.mkdirp_exists_mono _ _ _ (FS.mkdirp_exists_mono _ _ _ hp)))))

/-- C7 witness: a missing source outside the workspace root raises
NotFound and leaves the filesystem with only the workspace directories
created. -/
theorem C7_materialize_sources_precondition_handling_witness :
    materialize_project_sources ["nowhere", "proj"]
      (create_workspace ["workspaces"] "p1" "s1" { dirs := [], files := [] }).1
      (create_workspace ["workspaces"] "p1" "s1" { dirs := [], files := [] }).2 =
    (((create_workspace ["workspaces"] "p1" "s1"
          { dirs := [], files := [] }).1.ensure_created
        (create_workspace ["workspaces"] "p1" "s1"
          { dirs := [], files := [] }).2).mkdirp
      (create_workspace ["workspaces"] "p1" "s1"
        { dirs := [], files := [] }).1.contracts_dir,
     Except.error (PyErr.fileNotFoundError
       ("Project path '" ++ relAsPosix ["nowhere", "proj"] ++
         "' does not exist inside the backend container."))) :=
  C7_materialize_sources_precondition_handling.2.1 _ _ _ (by decide) (by decide)

/-- C7 counterexample: a source path that resolves inside the workspace
root but does not exist is returned unchanged — no NotFound is raised,
contradicting the claim that a missing source always raises NotFound. -/
theorem C7_counterexample_missing_source_inside_workspace :
    (FS.pathExists
      (create_workspace ["workspaces"] "p1" "s1" { dirs := [], files := [] }).2
      ["workspaces", "p1", "s1", "contracts", "ghost.sol"] = false) ∧
    ((materialize_project_sources
        ["workspaces", "p1", "s1", "contracts", "ghost.sol"]
        (create_workspace ["workspaces"] "p1" "s1" { dirs := [], files := [] }).1
        (create_workspace ["workspaces"] "p1" "s1"
          { dirs := [], files := [] }).2).2 =
      Except.ok ["workspaces", "p1", "s1", "contracts", "ghost.sol"]) := by
  decide

/-- C8: container-target resolution.  Empty/"."/"/" (or absent) targets
map to the container root for any project root name; when the first path
segment of the target equals the project root directory's own name it is
stripped and the rest is appended to the container root; otherwise the
whole normalized relative target is appended; and the Echidna adapter's
copy of the resolution agrees with the Slither adapter's everywhere. -/
theorem C8_container_target_resolution :
    (∀ name : String,
      SlitherTool.resolve_container_target "/project" none name = "/project" ∧
      SlitherTool.resolve_container_target "/project" (some "") name
        = "/project" ∧
      SlitherTool.resolve_container_target "/project" (some ".") name
        = "/project" ∧
      SlitherTool.resolve_container_target "/project" (some "/") name
        = "/project") ∧
    SlitherTool.resolve_container_target "/project" (some "contracts/Foo.sol")
      "contracts" = "/project/Foo.sol" ∧
    (∀ (tgt : Option String) (name : String) (rest : List String),
      pyStrip (tgt.getD "") ≠ "" →
      pyStrip (tgt.getD "") ≠ "." →
      pyStrip (tgt.getD "") ≠ "/" →
      pathParts (strDropWhile (fun c => c = '/') (pyStrip (tgt.getD "")))
        = name :: rest →
      SlitherTool.resolve_container_target "/project" tgt name =
        (if rest = [] then "/project"
         else "/project" ++ "/" ++ strJoinSep "/" rest)) ∧
    (∀ (tgt : Option String) (name : String) (ps : List String),
      pyStrip (tgt.getD "") ≠ "" →
      pyStrip (tgt.getD "") ≠ "." →
      pyStrip (tgt.getD "") ≠ "/" →
      pathParts (strDropWhile (fun c => c = '/') (pyStrip (tgt.getD ""))) = ps →
      ps.head? ≠ some name →
      SlitherTool.resolve_container_target "/project" tgt name =
        (if ps = [] then "/project"
         else "/project" ++ "/" ++ strJoinSep "/" ps)) ∧
    (∀ (containerRoot : String) (tgt : Option String) (name : String),
      SlitherTool.resolve_container_target containerRoot tgt name =
        EchidnaTool.resolve_container_target containerRoot tgt name) := by
  refine ⟨?_, by decide, ?_, ?_, fun _ _ _ => rfl⟩
  · intro name
    refine ⟨?_, ?_, ?_, ?_⟩ <;>
      (simp only [SlitherTool.resolve_container_target]; rw [if_pos]) <;> decide
  · intro tgt name rest h1 h2 h3 h4
    simp only [SlitherTool.resolve_container_target]
    rw [if_neg (by rintro (hc | hc | hc); exact h1 hc; exact h2 hc; exact h3 hc)]
    rw [h4]
    simp only [if_pos rfl]
    rcases rest with _ | ⟨r0, rs⟩
    · simp
    · simp
  · intro tgt name ps h1 h2 h3 h4 h5
    simp only [SlitherTool.resolve_container_target]
    rw [if_neg (by rintro (hc | hc | hc); exact h1 hc; exact h2 hc; exact h3 hc)]
    rw [h4]
    rcases ps with _ | ⟨p0, rest⟩
    · simp
    · have hp : p0 ≠ name := by
        intro he
        exact h5 (by subst he; rfl)
      dsimp only
      rw [if_neg hp]

/-- C8 witness: a target whose first segment matches the project root
name is stripped; one whose first segment does not match is appended
whole. -/
theorem C8_container_target_resolution_witness :
    SlitherTool.resolve_container_target "/project"
      (some "contracts/sub/Foo.sol") "contracts" = "/project/sub/Foo.sol" ∧
    SlitherTool.resolve_container_target "/project"
      (some "src/Main.sol") "contracts" = "/project/src/Main.sol" :=
  ⟨(C8_container_target_resolution.2.2.1 (some "contracts/sub/Foo.sol")
      "contracts" ["sub", "Foo.sol"] (by decide) (by decide) (by decide)
      (by decide)).trans (by decide),
   (C8_container_target_resolution.2.2.2.1 (some "src/Main.sol")
      "contracts" ["src", "Main.sol"] (by decide) (by decide) (by decide)
      (by decide) (by decide)).trans (by decide)⟩

/-- Step 3 of the classifier cascade: with no explicit marker and no
timeout phrase in stderr, a recorded parsing error classifies as
"tool-output-parse-error". -/
theorem classify_parse_error (tool : String) (r : ToolResult)
    (h1 : pyText r.failure_reason ≠ "timeout")
    (h2 : pyText r.failure_reason ≠ "process-spawn-error")
    (h3 : strContains (pyLower r.error) "timeout" = false)
    (h4 : strContains (pyLower r.error) "timed out" = false)
    (h5 : pyText r.parsing_error ≠ "") :
    classify_tool_failure tool r = "tool-output-parse-error" := by
  simp only [classify_tool_failure]
  rw [if_neg (by rintro (hc | hc); exact h1 hc; exact h2 hc)]
  rw [if_neg (by rw [h3, h4]; simp), if_pos h5]

/-- C10 (amended): when the harness reports success (exit code 0: the
result then carries no failure reason and no parsing error) but the
tool's stdout is non-empty and fails to parse as JSON, both adapters
leave the execution with `parsing_error` set and `failure_reason` set by
the classifier — which yields "tool-output-parse-error" whenever the
captured stderr contains no timeout phrase (a stderr timeout phrase
outranks the parse error and yields "tool-timeout" instead, see the
counterexample) — while the terminal status is SUCCEEDED, so a
parse-failed execution still counts toward the job's success tally. -/
theorem C10_parse_failure_keeps_success_status :
    (∀ (cmd : List String) (logDir : String) (t0 t1 : Nat) (out err : String),
      (run_command cmd logDir t0 t1 (ProcOutcome.completed 0 out err)).success
          = true ∧
      (run_command cmd logDir t0 t1
        (ProcOutcome.completed 0 out err)).failure_reason = none ∧
      (run_command cmd logDir t0 t1
        (ProcOutcome.completed 0 out err)).parsing_error = none) ∧
    (∀ (image : String) (jsonParse : JsonParse) (r : ToolResult)
        (e : ToolExecutionRec) (msg : String),
      r.success = true →
      r.failure_reason = none →
      r.output ≠ "" →
      jsonParse r.output = Except.error msg →
      pyStrip msg ≠ "" →
      strContains (pyLower r.error) "timeout" = false →
      strContains (pyLower r.error) "timed out" = false →
      ((SlitherTool.run_update image jsonParse r e).parsing_error = some msg ∧
       (SlitherTool.run_update image jsonParse r e).failure_reason
          = some "tool-output-parse-error" ∧
       (SlitherTool.run_update image jsonParse r e).status
          = ToolExecutionStatus.SUCCEEDED) ∧
      ((EchidnaTool.run_update image jsonParse r e).parsing_error = some msg ∧
       (EchidnaTool.run_update image jsonParse r e).failure_reason
          = some "tool-output-parse-error" ∧
       (EchidnaTool.run_update image jsonParse r e).status
          = ToolExecutionStatus.SUCCEEDED)) := by
  constructor
  · intro cmd logDir t0 t1 out err
    exact ⟨rfl, rfl, rfl⟩
  · intro image jsonParse r e msg hsucc hfr hout hjson hmsg ht1 ht2
    obtain ⟨succ, rout, rerr, rrc, rcmd, rsp, rep, rsa, rfa, rds, rpe, rfr,
      rap, rtv⟩ := r
    subst hsucc
    subst hfr
    have hcls : ∀ tool, classify_tool_failure tool
        { success := true, output := rout, error := rerr, return_code := rrc,
          command := rcmd, stdout_path := rsp, stderr_path := rep,
          started_at := rsa, finished_at := rfa, duration_seconds := rds,
          parsing_error := some msg, failure_reason := none,
          artifacts_path := rap, tool_version := rtv }
        = "tool-output-parse-error" := by
      intro tool
      exact classify_parse_error tool _
        (show pyText none ≠ "timeout" by decide)
        (show pyText none ≠ "process-spawn-error" by decide) ht1 ht2 hmsg
    constructor
    · simp [SlitherTool.run_update, hjson, hout, hcls]
    · simp [EchidnaTool.run_update, hjson, hout, hcls]

/-- C10 witness: a successful run whose stdout is not JSON ends
SUCCEEDED with both parsing_error and failure_reason
"tool-output-parse-error" set. -/
theorem C10_parse_failure_keeps_success_status_witness :
    (SlitherTool.run_update "trailofbits/eth-security-toolbox"
      (fun _ => Except.error "Expecting value: line 1 column 1 (char 0)")
      (run_command ["docker"] "logs" 0 1 (ProcOutcome.completed 0 "not json" ""))
      { id := 0, scan_id := "s1", tool := "slither",
        status := ToolExecutionStatus.RUNNING, attempt := 1 }).parsing_error
      = some "Expecting value: line 1 column 1 (char 0)" ∧
    (SlitherTool.run_update "trailofbits/eth-security-toolbox"
      (fun _ => Except.error "Expecting value: line 1 column 1 (char 0)")
      (run_command ["docker"] "logs" 0 1 (ProcOutcome.completed 0 "not json" ""))
      { id := 0, scan_id := "s1", tool := "slither",
        status := ToolExecutionStatus.RUNNING, attempt := 1 }).failure_reason
      = some "tool-output-parse-error" ∧
    (SlitherTool.run_update "trailofbits/eth-security-toolbox"
      (fun _ => Except.error "Expecting value: line 1 column 1 (char 0)")
      (run_command ["docker"] "logs" 0 1 (ProcOutcome.completed 0 "not json" ""))
      { id := 0, scan_id := "s1", tool := "slither",
        status := ToolExecutionStatus.RUNNING, attempt := 1 }).status
      = ToolExecutionStatus.SUCCEEDED := by
  have h := C10_parse_failure_keeps_success_status.2
    "trailofbits/eth-security-toolbox"
    (fun _ => Except.error "Expecting value: line 1 column 1 (char 0)")
    (run_command ["docker"] "logs" 0 1 (ProcOutcome.completed 0 "not json" ""))
    { id := 0, scan_id := "s1", tool := "slither",
      status := ToolExecutionStatus.RUNNING, attempt := 1 }
    "Expecting value: line 1 column 1 (char 0)"
    rfl rfl (by decide) rfl (by decide) (by decide) (by decide)
  exact ⟨h.1.1, h.1.2.1, h.1.2.2⟩

/-- C10 counterexample: when the successful run's stderr happens to
contain a timeout phrase, the parse failure is classified "tool-timeout",
not the "tool-output-parse-error" the claim states (status is still
SUCCEEDED and parsing_error is still set). -/
theorem C10_counterexample_stderr_timeout_outranks_parse_error :
    (run_command ["docker"] "logs" 0 1 (ProcOutcome.completed 0 "not json"
      "connection timed out")).success = true ∧
    (SlitherTool.run_update "img"
      (fun _ => Except.error "Expecting value: line 1 column 1 (char 0)")
      (run_command ["docker"] "logs" 0 1 (ProcOutcome.completed 0 "not json"
        "connection timed out"))
      { id := 0, scan_id := "s1", tool := "slither",
        status := ToolExecutionStatus.RUNNING, attempt := 1 }).parsing_error
      = some "Expecting value: line 1 column 1 (char 0)" ∧
    (SlitherTool.run_update "img"
      (fun _ => Except.error "Expecting value: line 1 column 1 (char 0)")
      (run_command ["docker"] "logs" 0 1 (ProcOutcome.completed 0 "not json"
        "connection timed out"))
      { id := 0, scan_id := "s1", tool := "slither",
        status := ToolExecutionStatus.RUNNING, attempt := 1 }).failure_reason
      = some "tool-timeout" ∧
    (SlitherTool.run_update "img"
      (fun _ => Except.error "Expecting value: line 1 column 1 (char 0)")
      (run_command ["docker"] "logs" 0 1 (ProcOutcome.completed 0 "not json"
        "connection timed out"))
      { id := 0, scan_id := "s1", tool := "slither",
        status := ToolExecutionStatus.RUNNING, attempt := 1 }).failure_reason
      ≠ some "tool-output-parse-error" := by decide

/-- Number of ToolExecution rows of a scan with a given tool name. -/
def countToolExecs (db : DB) (scanId toolName : String) : Nat :=
  (db.executions.filter (fun e =>
    decide (e.scan_id = scanId ∧ e.tool = toolName))).length

/-- One bootstrap step only appends execution rows. -/
theorem ensure_step_execs (ex : List String) (sid : String) (db : DB)
    (t : String) : ∃ new, (ensure_step ex sid db t).executions
      = db.executions ++ new := by
  simp only [ensure_step]
  split
  · exact ⟨[], by simp⟩
  · exact ⟨_, rfl⟩

/-- The bootstrap fold only appends execution rows. -/
theorem ensure_fold_execs (ex : List String) (sid : String) :
    ∀ (tools : List String) (db : DB),
      ∃ new, (tools.foldl (ensure_step ex sid) db).executions
        = db.executions ++ new := by
  intro tools
  induction tools with
  | nil => exact fun db => ⟨[], by simp⟩
  | cons hd tl ih =>
    intro db
    obtain ⟨n1, h1⟩ := ensure_step_execs ex sid db hd
    obtain ⟨n2, h2⟩ := ih (ensure_step ex sid db hd)
    exact ⟨n1 ++ n2, by rw [List.foldl_cons, h2, h1, List.append_assoc]⟩

/-- Per-tool row count after the bootstrap fold: the original count plus
one for every occurrence in the tool list that was not in the pre-loop
snapshot. -/
theorem ensure_fold_count (ex : List String) (sid t : String) :
    ∀ (tools : List String) (db : DB),
      countToolExecs (tools.foldl (ensure_step ex sid) db) sid t =
        countToolExecs db sid t +
          (tools.filter (fun x => decide (x = t) && !(ex.contains x))).length := by
  intro tools
  induction tools with
  | nil => intro db; simp
  | cons hd tl ih =>
    intro db
    rw [List.foldl_cons, ih, List.filter_cons]
    by_cases hex : ex.contains hd
    · simp only [ensure_step, if_pos hex, hex]
      simp
    · simp only [ensure_step, if_neg hex, eq_iff_iff]
      have hb : (ex.contains hd) = false := by
        exact Bool.not_eq_true _ |>.mp hex
      rw [hb]
      by_cases hht : hd = t
      · subst hht
        simp [countToolExecs, List.filter_append, Nat.add_comm, Nat.add_assoc,
          Nat.add_left_comm]
      · have : (decide (hd = t) && !false) = false := by
          simp [hht]
        rw [this]
        simp [countToolExecs, List.filter_append, hht]

/-- Membership in the pre-loop snapshot is a positive row count. -/
theorem existing_tools_contains_iff (db : DB) (sid t : String) :
    (existing_tools db sid).contains t = true ↔
      0 < countToolExecs db sid t := by
  simp only [existing_tools, countToolExecs, List.contains, List.elem_iff,
    List.mem_map, List.mem_filter, List.length_pos_iff_exists_mem,
    decide_eq_true_eq]
  constructor
  · rintro ⟨e, ⟨he, hsid⟩, ht⟩
    exact ⟨e, he, hsid, ht⟩
  · rintro ⟨e, he, hsid, ht⟩
    exact ⟨e, ⟨he, hsid⟩, ht⟩

/-- In a duplicate-free list every member is picked exactly once. -/
theorem filter_eq_length_one {l : List String} {t : String}
    (hnd : l.Nodup) (hmem : t ∈ l) :
    (l.filter (fun x => decide (x = t))).length = 1 := by
  induction l with
  | nil => cases hmem
  | cons hd tl ih =>
    rcases List.nodup_cons.mp hnd with ⟨hni, hnd'⟩
    by_cases hht : hd = t
    · subst hht
      have : tl.filter (fun x => decide (x = hd)) = [] :=
        List.filter_eq_nil_iff.mpr (fun a ha => by
          simp only [decide_eq_true_eq]
          intro he
          exact hni (he ▸ ha))
      simp [List.filter_cons, this]
    · have hmem' : t ∈ tl := by
        rcases hmem with _ | h
        · exact absurd rfl hht
        · assumption
      simp [List.filter_cons, hht, ih hnd' hmem']

/-- When every requested tool is already in the snapshot, the bootstrap
fold is the identity. -/
theorem ensure_fold_skip (ex : List String) (sid : String) :
    ∀ (tools : List String) (db : DB),
      (∀ x ∈ tools, ex.contains x = true) →
      tools.foldl (ensure_step ex sid) db = db := by
  intro tools
  induction tools with
  | nil => intro db _; rfl
  | cons hd tl ih =>
    intro db hall
    rw [List.foldl_cons, ensure_step, if_pos (hall hd (by simp))]
    exact ih db (fun x hx => hall x (by simp [hx]))

/-- A second bootstrap invocation changes nothing, whatever the tool
list and the prior state. -/
theorem ensure_idempotent (db : DB) (scan : ScanRec) :
    ensure_tool_executions (ensure_tool_executions db scan) scan
      = ensure_tool_executions db scan := by
  apply ensure_fold_skip
  intro t ht
  rw [existing_tools_contains_iff]
  rw [show ensure_tool_executions db scan
    = scan.tools.foldl (ensure_step (existing_tools db scan.id) scan.id) db
    from rfl]
  rw [ensure_fold_count]
  by_cases hex : (existing_tools db scan.id).contains t
  · have := (existing_tools_contains_iff db scan.id t).mp hex
    omega
  · have hb : (existing_tools db scan.id).contains t = false :=
      Bool.not_eq_true _ |>.mp hex
    have : t ∈ scan.tools.filter
        (fun x => decide (x = t) && !((existing_tools db scan.id).contains x)) :=
      List.mem_filter.mpr ⟨ht, by
        simp only [Bool.and_eq_true, decide_eq_true_eq, Bool.not_eq_true']
        exact ⟨trivial, hb⟩⟩
    have hlen : 0 < (scan.tools.filter
        (fun x => decide (x = t) &&
          !((existing_tools db scan.id).contains x))).length :=
      List.length_pos_iff_exists_mem.mpr ⟨t, this⟩
    omega

/-- C9 (amended): for a scan whose requested tool list has no duplicate
names, and a state holding at most one row per (scan, tool), invoking
the bootstrap twice in succession yields exactly one ToolExecution per
requested tool name; the second invocation changes nothing at all (this
holds unconditionally), and pre-existing rows are never modified — the
bootstrap only appends.  A requested list with a duplicated name yields
duplicated rows (see the counterexample), because the existing-rows
snapshot is taken once before the insertion loop. -/
theorem C9_bootstrap_idempotent_unique_rows (db : DB) (scan : ScanRec)
    (hnd : scan.tools.Nodup)
    (hinit : ∀ t, countToolExecs db scan.id t ≤ 1) :
    ensure_tool_executions (ensure_tool_executions db scan) scan
      = ensure_tool_executions db scan ∧
    (∀ t ∈ scan.tools,
      countToolExecs (ensure_tool_executions (ensure_tool_executions db scan)
        scan) scan.id t = 1) ∧
    (∃ new, (ensure_tool_executions (ensure_tool_executions db scan)
        scan).executions = db.executions ++ new) := by
  have hid := ensure_idempotent db scan
  refine ⟨hid, ?_, ?_⟩
  · intro t ht
    rw [hid]
    rw [show ensure_tool_executions db scan
      = scan.tools.foldl (ensure_step (existing_tools db scan.id) scan.id) db
      from rfl, ensure_fold_count]
    by_cases hex : (existing_tools db scan.id).contains t
    · have hpos := (existing_tools_contains_iff db scan.id t).mp hex
      have hle := hinit t
      have hfil : (scan.tools.filter (fun x => decide (x = t) &&
          !((existing_tools db scan.id).contains x))).length = 0 := by
        rw [List.length_eq_zero, List.filter_eq_nil_iff]
        intro a ha
        by_cases hat : a = t
        · subst hat
          simp [hex]
          exact List.elem_iff.mp hex
        · simp [hat]
      omega
    · have hb : (existing_tools db scan.id).contains t = false :=
        Bool.not_eq_true _ |>.mp hex
      have h0 : countToolExecs db scan.id t = 0 := by
        by_contra h
        exact hex ((existing_tools_contains_iff db scan.id t).mpr
          (Nat.pos_of_ne_zero h))
      have hone : (scan.tools.filter (fun x => decide (x = t) &&
          !((existing_tools db scan.id).contains x))).length = 1 := by
        have hcong : scan.tools.filter (fun x => decide (x = t) &&
            !((existing_tools db scan.id).contains x))
            = scan.tools.filter (fun x => decide (x = t)) :=
          List.filter_congr (fun x _ => by
            by_cases hxt : x = t
            · subst hxt
              simp [hb]
              exact fun hmem => by simp at hb; exact hb hmem
            · simp [hxt])
        rw [hcong, filter_eq_length_one hnd ht]
      omega
  · rw [hid]
    exact ensure_fold_execs _ _ _ db

/-- C9 witness: bootstrapping a fresh two-tool scan twice leaves exactly
one row for each tool. -/
theorem C9_bootstrap_idempotent_unique_rows_witness :
    countToolExecs (ensure_tool_executions (ensure_tool_executions
      { projects := [], scans := [], executions := [], nextExecId := 0 }
      { id := "s1", project_id := "p1", target := none,
        tools := ["echidna", "slither"], status := ScanStatus.PENDING })
      { id := "s1", project_id := "p1", target := none,
        tools := ["echidna", "slither"], status := ScanStatus.PENDING })
      "s1" "slither" = 1 :=
  (C9_bootstrap_idempotent_unique_rows
    { projects := [], scans := [], executions := [], nextExecId := 0 }
    { id := "s1", project_id := "p1", target := none,
      tools := ["echidna", "slither"], status := ScanStatus.PENDING }
    (by decide) (fun t => by simp [countToolExecs])).2.1
    "slither" (by decide)

/-- C9 counterexample: a scan requesting `["slither", "slither"]`
bootstrapped twice holds two rows for "slither", not one — the
existing-rows snapshot is computed before the insertion loop, so a
duplicated requested name inserts duplicated rows. -/
theorem C9_counterexample_duplicate_requested_tool :
    countToolExecs (ensure_tool_executions (ensure_tool_executions
      { projects := [], scans := [], executions := [], nextExecId := 0 }
      { id := "s2", project_id := "p1", target := none,
        tools := ["slither", "slither"], status := ScanStatus.PENDING })
      { id := "s2", project_id := "p1", target := none,
        tools := ["slither", "slither"], status := ScanStatus.PENDING })
      "s2" "slither" = 2 := by decide

/-- Number of the scan's executions in terminal SUCCEEDED state (the
`success_count` query of runner.py, lines 267-274). -/
def succeeded_count (db : DB) (scanId : String) : Nat :=
  (db.executions.filter (fun e =>
    decide (e.scan_id = scanId ∧
      e.status = ToolExecutionStatus.SUCCEEDED))).length

/-- After committing a row mutation, looking the key up returns the
mutated row (provided a row with that key existed). -/
theorem find_replace_by_key {α : Type _} {β : Type _} [DecidableEq β]
    (key : α → β) (l : List α) (s : α) (h : ∃ x ∈ l, key x = key s) :
    (l.map (fun x => if key x = key s then s else x)).find?
      (fun x => decide (key x = key s)) = some s := by
  induction l with
  | nil => rcases h with ⟨x, hx, _⟩; cases hx
  | cons hd tl ih =>
    by_cases hh : key hd = key s
    · rw [List.map_cons, if_pos hh]
      exact List.find?_cons_of_pos _ (by simp)
    · rw [List.map_cons, if_neg hh,
        List.find?_cons_of_neg _ (by simp [hh])]
      rcases h with ⟨x, hx, hxid⟩
      rcases List.mem_cons.mp hx with rfl | hx'
      · exact absurd hxid hh
      · exact ih ⟨x, hx', hxid⟩

/-- `find_replace_by_key`, stated through an explicit key value. -/
theorem find_replace_by_key' {α : Type _} {β : Type _} [DecidableEq β]
    (key : α → β) (l : List α) (s : α) (k : β) (hk : key s = k)
    (h : ∃ x ∈ l, key x = k) :
    (l.map (fun x => if key x = k then s else x)).find?
      (fun x => decide (key x = k)) = some s := by
  subst hk
  exact find_replace_by_key key l s h

/-- `find_replace_by_key` with the looked-up key given explicitly while
the commit's own condition still compares against the row's key. -/
theorem find_replace_by_key2 {α : Type _} {β : Type _} [DecidableEq β]
    (key : α → β) (l : List α) (s : α) (k : β) (hk : key s = k)
    (h : ∃ x ∈ l, key x = k) :
    (l.map (fun x => if key x = key s then s else x)).find?
      (fun x => decide (key x = k)) = some s := by
  subst hk
  exact find_replace_by_key key l s h

/-- Committing a row mutation keeps a row with that key present. -/
theorem mem_replace_by_key {α : Type _} {β : Type _} [DecidableEq β]
    (key : α → β) (l : List α) (s : α) (h : ∃ x ∈ l, key x = key s) :
    ∃ x ∈ l.map (fun x => if key x = key s then s else x), key x = key s := by
  rcases h with ⟨x, hx, hk⟩
  have hmem : (if key x = key s then s else x) ∈
      l.map (fun y => if key y = key s then s else y) :=
    List.mem_map_of_mem _ hx
  rw [if_pos hk] at hmem
  exact ⟨s, hmem, rfl⟩

/-- `mem_replace_by_key`, stated through an explicit key value. -/
theorem mem_replace_by_key' {α : Type _} {β : Type _} [DecidableEq β]
    (key : α → β) (l : List α) (s : α) (k : β) (hk : key s = k)
    (h : ∃ x ∈ l, key x = k) :
    ∃ x ∈ l.map (fun y => if key y = key s then s else y), key x = k := by
  subst hk
  exact mem_replace_by_key key l s h

/-- One loop iteration never touches the scans table. -/
theorem process_execution_scans (rn : String → Option AdapterFn)
    (st : DB × Nat × List DB) (eid : Nat) :
    ((process_execution rn st eid).1).scans = st.1.scans := by
  unfold process_execution
  dsimp only
  split
  · rfl
  · split
    · rfl
    · rfl

/-- The whole loop never touches the scans table. -/
theorem fold_process_scans (rn : String → Option AdapterFn)
    (ids : List Nat) : ∀ st : DB × Nat × List DB,
    ((ids.foldl (process_execution rn) st).1).scans = st.1.scans := by
  induction ids with
  | nil => intro st; rfl
  | cons hd tl ih =>
    intro st
    rw [List.foldl_cons, ih, process_execution_scans]

/-- The bootstrap never touches the scans table. -/
theorem ensure_fold_scans (ex : List String) (sid : String) :
    ∀ (tools : List String) (db : DB),
    (tools.foldl (ensure_step ex sid) db).scans = db.scans := by
  intro tools
  induction tools with
  | nil => intro db; rfl
  | cons hd tl ih =>
    intro db
    rw [List.foldl_cons, ih]
    unfold ensure_step
    split
    · rfl
    · rfl

/-- One loop iteration appends its committed snapshots, and none of
them changes the scans table. -/
theorem process_execution_commits (rn : String → Option AdapterFn)
    (st : DB × Nat × List DB) (eid : Nat) :
    ∃ new, (process_execution rn st eid).2.2 = st.2.2 ++ new ∧
      ∀ d ∈ new, d.scans = st.1.scans := by
  unfold process_execution
  dsimp only
  rcases hf : List.find? (fun e => decide (e.id = eid)) st.1.executions
      with _ | e
  · rw [hf]
    exact ⟨[], by simp, by simp⟩
  · rw [hf]
    dsimp only
    rcases hr : rn e.tool with _ | runner
    · dsimp only
      refine ⟨[_], rfl, ?_⟩
      intro d hd
      rcases List.mem_singleton.mp hd with rfl
      rfl
    · dsimp only
      refine ⟨_, List.append_assoc _ _ _, ?_⟩
      intro d hd
      rcases List.mem_append.mp hd with h | h
      · rcases List.mem_singleton.mp h with rfl
        rfl
      · rcases List.mem_singleton.mp h with rfl
        rfl

/-- The whole loop appends its committed snapshots, none touching the
scans table. -/
theorem fold_process_commits (rn : String → Option AdapterFn)
    (ids : List Nat) : ∀ st : DB × Nat × List DB,
    ∃ new, (ids.foldl (process_execution rn) st).2.2 = st.2.2 ++ new ∧
      ∀ d ∈ new, d.scans = st.1.scans := by
  induction ids with
  | nil => intro st; exact ⟨[], by simp, by simp⟩
  | cons hd tl ih =>
    intro st
    obtain ⟨n1, h1, hs1⟩ := process_execution_commits rn st hd
    obtain ⟨n2, h2, hs2⟩ := ih (process_execution rn st hd)
    refine ⟨n1 ++ n2, ?_, ?_⟩
    · rw [List.foldl_cons, h2, h1, List.append_assoc]
    · intro d hd'
      rcases List.mem_append.mp hd' with h | h
      · exact hs1 d h
      · exact (hs2 d h).trans (process_execution_scans rn st hd)

/-- Successful context loads pin down the scan row: it is the one the
query found, and its id is the requested one. -/
theorem load_ok_facts (w : PyPath) (db : DB) (sid : String) (fs : FS)
    (ctx : ScanContext)
    (h : (load_scan_context w db sid fs).2 = Except.ok ctx) :
    db.scans.find? (fun s => decide (s.id = sid)) = some ctx.scan ∧
      ctx.scan.id = sid := by
  unfold load_scan_context at h
  rcases hf : db.scans.find? (fun s => decide (s.id = sid)) with _ | scan
  · rw [hf] at h; cases h
  · rw [hf] at h
    dsimp only at h
    have hsid : scan.id = sid := by
      have h1 := List.find?_some hf
      simpa using h1
    rcases hp : db.projects.find?
        (fun p => decide (p.id = scan.project_id)) with _ | project
    · rw [hp] at h; cases h
    · rw [hp] at h
      dsimp only at h
      rcases hm : (materialize_project_sources project.path
          (create_workspace w project.id scan.id fs).1
          (create_workspace w project.id scan.id fs).2).2 with e | root
      · rw [hm] at h; cases h
      · rw [hm] at h
        dsimp only at h
        have := Except.ok.inj h
        rw [← this]
        exact ⟨hf, hsid⟩

/-- Marking a scan RUNNING keeps its id. -/
theorem mark_scan_running_id (t : Nat) (scan : ScanRec) :
    (mark_scan_running t scan).2.id = scan.id := by
  unfold mark_scan_running
  dsimp only
  rcases scan.started_at with _ | t0
  · rfl
  · rfl

/-- Marking a scan RUNNING sets exactly the RUNNING status. -/
theorem mark_scan_running_status (t : Nat) (scan : ScanRec) :
    (mark_scan_running t scan).2.status = ScanStatus.RUNNING := by
  unfold mark_scan_running
  dsimp only
  rcases scan.started_at with _ | t0
  · rfl
  · rfl

/-- On a successful load, `run_scan_sync` is the ok-branch body. -/
theorem run_scan_sync_eq_ok (w : PyPath) (sid : String)
    (rn : String → Option AdapterFn) (db0 : DB) (fs0 : FS)
    (ctx : ScanContext)
    (h : (load_scan_context w db0 sid fs0).2 = Except.ok ctx) :
    run_scan_sync w sid rn db0 fs0
      = run_scan_ok sid rn db0 (load_scan_context w db0 sid fs0).1 ctx := by
  unfold run_scan_sync
  dsimp only
  rw [h]

/-- Shape of one ok-branch run: the final database is the loop result
with the finalized scan row committed on top; the committed snapshots
are the RUNNING mark, the bootstrap commit, the loop's commits and the
final commit; and neither the bootstrap nor the loop ever touches the
scans table. -/
theorem run_ok_spec (sid : String) (rn : String → Option AdapterFn)
    (db0 : DB) (fs1 : FS) (ctx : ScanContext) :
    let scan1 := (mark_scan_running 0 ctx.scan).2
    let db1 := db0.replaceScan scan1
    let db2 := ensure_tool_executions db1 scan1
    let execIds := (executions_sorted db2 scan1.id).map (fun e => e.id)
    let looped := execIds.foldl (process_execution rn)
      (db2, (mark_scan_running 0 ctx.scan).1, [db1, db2])
    let dbL := looped.1
    ((run_scan_ok sid rn db0 fs1 ctx).db = dbL.replaceScan
      { scan1 with
        finished_at := some (tickNow looped.2.1).1
        status := if succeeded_count dbL scan1.id > 0 then ScanStatus.SUCCESS
          else ScanStatus.FAILED
        logs := some (build_logs_snapshot dbL scan1.id) }) ∧
    (∃ newCommits,
      (run_scan_ok sid rn db0 fs1 ctx).commits =
        [db1, db2] ++ newCommits ++ [(run_scan_ok sid rn db0 fs1 ctx).db] ∧
      (∀ d ∈ newCommits, d.scans = db1.scans)) ∧
    dbL.scans = db1.scans := by
  intro scan1 db1 db2 execIds looped dbL
  refine ⟨rfl, ?_, ?_⟩
  · obtain ⟨new, hnew, hsc⟩ := fold_process_commits rn execIds
      (db2, (mark_scan_running 0 ctx.scan).1, [db1, db2])
    refine ⟨new, ?_, ?_⟩
    · show looped.2.2 ++ _ = _
      rw [hnew]
      simp only [List.append_assoc]
      rfl
    · intro d hd
      exact (hsc d hd).trans (ensure_fold_scans _ _ _ _)
  · exact (fold_process_scans rn execIds _).trans (ensure_fold_scans _ _ _ _)

/-- Replacing a scan row leaves the executions table unchanged, so the
success tally is unchanged. -/
theorem succeeded_count_replaceScan (db : DB) (s : ScanRec) (sid : String) :
    succeeded_count (db.replaceScan s) sid = succeeded_count db sid := rfl

/-- After a run whose context load succeeded, the job row holds the
aggregate status: SUCCESS exactly when some execution row is SUCCEEDED,
and the final status is terminal either way. -/
theorem run_final_scan (w : PyPath) (sid : String)
    (rn : String → Option AdapterFn) (db0 : DB) (fs0 : FS)
    (ctx : ScanContext)
    (hl : (load_scan_context w db0 sid fs0).2 = Except.ok ctx) :
    ∃ s, (run_scan_sync w sid rn db0 fs0).db.scans.find?
        (fun x => decide (x.id = sid)) = some s ∧
      (s.status = ScanStatus.SUCCESS ↔
        0 < succeeded_count (run_scan_sync w sid rn db0 fs0).db sid) ∧
      (s.status = ScanStatus.SUCCESS ∨ s.status = ScanStatus.FAILED) := by
  obtain ⟨hfind, hid⟩ := load_ok_facts w db0 sid fs0 ctx hl
  · 
    have heq := run_scan_sync_eq_ok w sid rn db0 fs0 ctx hl
    have hspec := run_ok_spec sid rn db0 (load_scan_context w db0 sid fs0).1 ctx
    dsimp only at hspec
    obtain ⟨hA, -, hC⟩ := hspec
    rw [heq, hA]
    have hsid1 : (mark_scan_running 0 ctx.scan).2.id = sid :=
      (mark_scan_running_id 0 ctx.scan).trans hid
    rw [← hsid1]
    have hmem0 : ∃ x ∈ db0.scans, x.id = (mark_scan_running 0 ctx.scan).2.id :=
      ⟨ctx.scan, List.mem_of_find?_eq_some hfind, hid.trans hsid1.symm⟩
    have hmem1 : ∃ x ∈ (db0.replaceScan (mark_scan_running 0 ctx.scan).2).scans,
        x.id = (mark_scan_running 0 ctx.scan).2.id :=
      mem_replace_by_key (fun r : ScanRec => r.id) db0.scans
        (mark_scan_running 0 ctx.scan).2 hmem0
    rw [← hC] at hmem1
    refine ⟨_, find_replace_by_key' (fun r : ScanRec => r.id) _ _ _ rfl hmem1, ?_⟩
    rw [succeeded_count_replaceScan]
    dsimp only
    by_cases hc : 0 < succeeded_count
        (((executions_sorted (ensure_tool_executions
              (db0.replaceScan (mark_scan_running 0 ctx.scan).2)
              (mark_scan_running 0 ctx.scan).2)
            (mark_scan_running 0 ctx.scan).2.id).map (fun e => e.id)).foldl
          (process_execution rn)
          (ensure_tool_executions
              (db0.replaceScan (mark_scan_running 0 ctx.scan).2)
              (mark_scan_running 0 ctx.scan).2,
            (mark_scan_running 0 ctx.scan).1,
            [db0.replaceScan (mark_scan_running 0 ctx.scan).2,
             ensure_tool_executions
               (db0.replaceScan (mark_scan_running 0 ctx.scan).2)
               (mark_scan_running 0 ctx.scan).2])).1
        (mark_scan_running 0 ctx.scan).2.id
    · rw [if_pos hc]
      exact ⟨by simp [hc], Or.inl rfl⟩
    · rw [if_neg hc]
      exact ⟨by simp [hc], Or.inr rfl⟩

/-- C1: for every run whose context load succeeds (the job and project
rows exist and the sources materialize), the job's final status is
SUCCESS if and only if at least one of its ToolExecution rows is
SUCCEEDED once all executions are processed; and when zero of its
ToolExecution rows are SUCCEEDED, the final status is FAILED. -/
theorem C1_success_iff_one_tool_succeeded (w : PyPath) (sid : String)
    (rn : String → Option AdapterFn) (db0 : DB) (fs0 : FS)
    (hload : (load_scan_context w db0 sid fs0).2.isOk = true) :
    ∃ s, (run_scan_sync w sid rn db0 fs0).db.scans.find?
        (fun x => decide (x.id = sid)) = some s ∧
      (s.status = ScanStatus.SUCCESS ↔
        0 < succeeded_count (run_scan_sync w sid rn db0 fs0).db sid) ∧
      (succeeded_count (run_scan_sync w sid rn db0 fs0).db sid = 0 →
        s.status = ScanStatus.FAILED) := by
  rcases hl : (load_scan_context w db0 sid fs0).2 with e | ctx
  · rw [hl] at hload; cases hload
  · obtain ⟨s, h1, h2, h3⟩ := run_final_scan w sid rn db0 fs0 ctx hl
    refine ⟨s, h1, h2, fun hz => ?_⟩
    rcases h3 with hS | hF
    · exact absurd (h2.mp hS) (by omega)
    · exact hF

/-- C1 witness: in the three-tool scenario the executions end
[SUCCEEDED, FAILED, FAILED] and the job is SUCCESS — one successful tool
is sufficient; in the two-tool scenario where both tools fail, zero
executions are SUCCEEDED and the job is FAILED. -/
theorem C1_success_iff_one_tool_succeeded_witness :
    (∃ s, (run_scan_sync ["workspaces"] "s1" demoRunners demoDB
        demoFS).db.scans.find? (fun x => decide (x.id = "s1")) = some s ∧
      (s.status = ScanStatus.SUCCESS ↔
        0 < succeeded_count (run_scan_sync ["workspaces"] "s1" demoRunners
          demoDB demoFS).db "s1") ∧
      (succeeded_count (run_scan_sync ["workspaces"] "s1" demoRunners
          demoDB demoFS).db "s1" = 0 →
        s.status = ScanStatus.FAILED)) ∧
    ((run_scan_sync ["workspaces"] "s1" demoRunners demoDB
        demoFS).db.executions.map (fun e => e.status)
      = [ToolExecutionStatus.SUCCEEDED, ToolExecutionStatus.FAILED,
         ToolExecutionStatus.FAILED]) ∧
    scanStatusOf (run_scan_sync ["workspaces"] "s1" demoRunners demoDB
      demoFS).db "s1" = some ScanStatus.SUCCESS ∧
    ((run_scan_sync ["workspaces"] "s2" demoRunners demoAllFailDB
        demoFS).db.executions.map (fun e => e.status)
      = [ToolExecutionStatus.FAILED, ToolExecutionStatus.FAILED]) ∧
    succeeded_count (run_scan_sync ["workspaces"] "s2" demoRunners
      demoAllFailDB demoFS).db "s2" = 0 ∧
    scanStatusOf (run_scan_sync ["workspaces"] "s2" demoRunners
      demoAllFailDB demoFS).db "s2" = some ScanStatus.FAILED :=
  ⟨C1_success_iff_one_tool_succeeded ["workspaces"] "s1" demoRunners demoDB
      demoFS (by decide),
   by decide, by decide, by decide, by decide, by decide⟩

/-- A map whose value is constant on the list is a replicate. -/
theorem map_const_replicate {α β : Type _} (f : α → β) (c : β) :
    ∀ l : List α, (∀ d ∈ l, f d = c) →
      l.map f = List.replicate l.length c := by
  intro l
  induction l with
  | nil => intro _; rfl
  | cons hd tl ih =>
    intro h
    rw [List.map_cons, h hd (by simp), List.length_cons, List.replicate_succ,
      ih (fun d hd' => h d (by simp [hd']))]

/-- The committed status only depends on the scans table. -/
theorem scanStatusOf_congr (d d' : DB) (sid : String)
    (h : d.scans = d'.scans) : scanStatusOf d sid = scanStatusOf d' sid := by
  unfold scanStatusOf
  rw [h]

/-- C2 (amended): within a single invocation of run_scan_sync whose
context load succeeds, the committed job statuses are one-directional:
every intermediate commit shows RUNNING and the final commit shows a
terminal SUCCESS or FAILED, which is also the final persisted status.
However, re-invoking run_scan_sync on a job that already reached a
terminal state marks it RUNNING again (and commits that state) before
finishing in a terminal state — the original claim fails across
re-invocations (see the counterexample). -/
theorem C2_single_run_commits_one_directional (w : PyPath) (sid : String)
    (rn : String → Option AdapterFn) (db0 : DB) (fs0 : FS)
    (hload : (load_scan_context w db0 sid fs0).2.isOk = true) :
    ∃ (n : Nat) (fin : ScanStatus),
      ((run_scan_sync w sid rn db0 fs0).commits.map
          (fun d => scanStatusOf d sid))
        = List.replicate n (some ScanStatus.RUNNING) ++ [some fin] ∧
      (fin = ScanStatus.SUCCESS ∨ fin = ScanStatus.FAILED) ∧
      scanStatusOf (run_scan_sync w sid rn db0 fs0).db sid = some fin := by
  rcases hl : (load_scan_context w db0 sid fs0).2 with e | ctx
  · rw [hl] at hload; cases hload
  · obtain ⟨hfind, hid⟩ := load_ok_facts w db0 sid fs0 ctx hl
    have heq := run_scan_sync_eq_ok w sid rn db0 fs0 ctx hl
    have hspec := run_ok_spec sid rn db0 (load_scan_context w db0 sid fs0).1 ctx
    dsimp only at hspec
    obtain ⟨hA, ⟨nc, hB, hG⟩, hC⟩ := hspec
    obtain ⟨s, hres, _hiff, hor⟩ := run_final_scan w sid rn db0 fs0 ctx hl
    have hlast : scanStatusOf (run_scan_sync w sid rn db0 fs0).db sid
        = some s.status := by
      unfold scanStatusOf
      rw [hres]
      rfl
    have hsid1 : (mark_scan_running 0 ctx.scan).2.id = sid :=
      (mark_scan_running_id 0 ctx.scan).trans hid
    have hmem0 : ∃ x ∈ db0.scans, x.id = (mark_scan_running 0 ctx.scan).2.id :=
      ⟨ctx.scan, List.mem_of_find?_eq_some hfind, hid.trans hsid1.symm⟩
    have hfind1 : (db0.replaceScan (mark_scan_running 0 ctx.scan).2).scans.find?
        (fun x => decide (x.id = (mark_scan_running 0 ctx.scan).2.id))
        = some (mark_scan_running 0 ctx.scan).2 :=
      find_replace_by_key' (fun r : ScanRec => r.id) db0.scans
        (mark_scan_running 0 ctx.scan).2 _ rfl hmem0
    have h1 : scanStatusOf (db0.replaceScan (mark_scan_running 0 ctx.scan).2)
        sid = some ScanStatus.RUNNING := by
      unfold scanStatusOf
      rw [← hsid1, hfind1]
      simp [mark_scan_running_status]
    have h2 : scanStatusOf (ensure_tool_executions
        (db0.replaceScan (mark_scan_running 0 ctx.scan).2)
        (mark_scan_running 0 ctx.scan).2) sid = some ScanStatus.RUNNING :=
      (scanStatusOf_congr _ _ sid (ensure_fold_scans _ _ _ _)).trans h1
    have h3 : ∀ d ∈ nc, scanStatusOf d sid = some ScanStatus.RUNNING :=
      fun d hd => (scanStatusOf_congr _ _ sid (hG d hd)).trans h1
    have hlast' : scanStatusOf
        (run_scan_ok sid rn db0 (load_scan_context w db0 sid fs0).1 ctx).db sid
        = some s.status := by
      rw [← heq]
      exact hlast
    refine ⟨nc.length + 2, s.status, ?_, hor, hlast⟩
    rw [heq, hB]
    rw [List.map_append, List.map_append,
      map_const_replicate (fun d => scanStatusOf d sid)
        (some ScanStatus.RUNNING) nc h3]
    simp only [List.map_cons, List.map_nil, h1, h2, hlast',
      List.replicate_succ, List.length_cons]
    rw [List.append_assoc]
    rfl

/-- C2 witness: the three-tool scenario's commit trace is RUNNING
states followed by one terminal status. -/
theorem C2_single_run_commits_one_directional_witness :
    ∃ (n : Nat) (fin : ScanStatus),
      ((run_scan_sync ["workspaces"] "s1" demoRunners demoDB demoFS).commits.map
          (fun d => scanStatusOf d "s1"))
        = List.replicate n (some ScanStatus.RUNNING) ++ [some fin] ∧
      (fin = ScanStatus.SUCCESS ∨ fin = ScanStatus.FAILED) ∧
      scanStatusOf (run_scan_sync ["workspaces"] "s1" demoRunners demoDB
        demoFS).db "s1" = some fin :=
  C2_single_run_commits_one_directional ["workspaces"] "s1" demoRunners
    demoDB demoFS (by decide)

/-- C2 counterexample: after the job reaches SUCCESS, re-invoking
run_scan_sync on the same job id commits a RUNNING state for it again —
the terminal state is not preserved across re-invocations. -/
theorem C2_counterexample_rerun_marks_terminal_job_running :
    scanStatusOf (run_scan_sync ["workspaces"] "s1" demoRunners demoDB
      demoFS).db "s1" = some ScanStatus.SUCCESS ∧
    ((run_scan_sync ["workspaces"] "s1" demoRunners
        (run_scan_sync ["workspaces"] "s1" demoRunners demoDB demoFS).db
        (run_scan_sync ["workspaces"] "s1" demoRunners demoDB
          demoFS).fs).commits.map
      (fun d => scanStatusOf d "s1")).contains (some ScanStatus.RUNNING)
      = true := by decide

/-- Marking an execution RUNNING keeps its row id. -/
theorem mark_execution_running_id (t : Nat) (e : ToolExecutionRec) :
    (mark_execution_running t e).2.id = e.id := by
  unfold mark_execution_running
  dsimp only
  rcases e.started_at with _ | t0
  · rfl
  · rfl

/-- Finalizing an execution keeps its row id. -/
theorem finalize_execution_id (t : Nat) (e : ToolExecutionRec) :
    (finalize_execution t e).2.id = e.id := by
  unfold finalize_execution
  dsimp only
  split <;> split <;> rfl

/-- Finalizing a FAILED execution keeps it FAILED and does not touch
its error or failure reason. -/
theorem finalize_execution_failed (t : Nat) (e : ToolExecutionRec)
    (h : e.status = ToolExecutionStatus.FAILED) :
    (finalize_execution t e).2.status = ToolExecutionStatus.FAILED ∧
    (finalize_execution t e).2.error = e.error ∧
    (finalize_execution t e).2.failure_reason = e.failure_reason := by
  unfold finalize_execution
  dsimp only
  split
  · split
    · next h2 => exact absurd h h2.2
    · exact ⟨h, rfl, rfl⟩
  · split
    · next h2 => exact absurd h h2.2
    · exact ⟨h, rfl, rfl⟩

/-- C5: run_scan_sync expresses every failure as persisted state only.
(1) When the referenced scan row does not exist, the run records
nothing observable: the store is untouched, no commit happens, and the
filesystem is untouched.  (2) When loading or workspace preparation
fails but the scan row exists, the scan is committed FAILED with the
synthetic single-entry log carrying the error text.  (3) An exception
escaping an adapter's run leaves that execution committed FAILED, its
error set to the exception text and its failure_reason defaulting to
"runner_exception" only if the adapter had not already set a reason. -/
theorem C5_failures_become_persisted_state :
    (∀ (w : PyPath) (sid : String) (rn : String → Option AdapterFn)
        (db0 : DB) (fs0 : FS),
      db0.scans.find? (fun s => decide (s.id = sid)) = none →
      run_scan_sync w sid rn db0 fs0 = { db := db0, fs := fs0, commits := [] }) ∧
    (∀ (w : PyPath) (sid : String) (rn : String → Option AdapterFn)
        (db0 : DB) (fs0 : FS) (msg : String) (scan : ScanRec),
      (load_scan_context w db0 sid fs0).2 = Except.error msg →
      db0.scans.find? (fun s => decide (s.id = sid)) = some scan →
      run_scan_sync w sid rn db0 fs0 =
        { db := db0.replaceScan { scan with
            status := ScanStatus.FAILED
            finished_at := some 0
            logs := some [{ tool := "runner",
                            status := some ToolExecutionStatus.FAILED.value,
                            error := some msg }] }
          fs := (load_scan_context w db0 sid fs0).1
          commits := [db0.replaceScan { scan with
            status := ScanStatus.FAILED
            finished_at := some 0
            logs := some [{ tool := "runner",
                            status := some ToolExecutionStatus.FAILED.value,
                            error := some msg }] }] }) ∧
    (∀ (rn : String → Option AdapterFn) (db : DB) (t : Nat)
        (commits : List DB) (eid : Nat) (e : ToolExecutionRec)
        (r : AdapterFn) (msg : String),
      db.executions.find? (fun x => decide (x.id = eid)) = some e →
      rn e.tool = some r →
      (r (mark_execution_running t e).2).exc = some msg →
      ∃ e2, (process_execution rn (db, t, commits) eid).1.executions.find?
          (fun x => decide (x.id = e.id)) = some e2 ∧
        e2.status = ToolExecutionStatus.FAILED ∧
        e2.error = some msg ∧
        e2.failure_reason = some (pyOrStr
          (r (mark_execution_running t e).2).exec.failure_reason
          "runner_exception")) := by
  refine ⟨?_, ?_, ?_⟩
  · intro w sid rn db0 fs0 h
    have hl2 : load_scan_context w db0 sid fs0
        = (fs0, Except.error ("Scan " ++ sid ++ " not found")) := by
      unfold load_scan_context
      rw [h]
    unfold run_scan_sync
    dsimp only
    rw [hl2]
    dsimp only
    rw [h]
  · intro w sid rn db0 fs0 msg scan hload hfind
    unfold run_scan_sync
    dsimp only
    rw [hload]
    dsimp only
    rw [hfind]
    rfl
  · intro rn db t commits eid e r msg hfind hr hexc
    have heid : e.id = eid := by
      have h1 := List.find?_some hfind
      simpa using h1
    unfold process_execution
    dsimp only
    rw [hfind]
    dsimp only
    rw [hr]
    dsimp only
    rw [hexc]
    dsimp only [handle_runner_exception]
    refine ⟨_, find_replace_by_key2 (fun x : ToolExecutionRec => x.id) _ _ e.id
      ?_
      (mem_replace_by_key' (fun x : ToolExecutionRec => x.id) db.executions
        (mark_execution_running t e).2 e.id (mark_execution_running_id t e)
        ⟨e, List.mem_of_find?_eq_some hfind, rfl⟩), ?_, ?_, ?_⟩
    · dsimp only
      rw [finalize_execution_id]
      exact mark_execution_running_id t e
    · exact (finalize_execution_failed _ _ rfl).1
    · exact (finalize_execution_failed _ _ rfl).2.1
    · exact (finalize_execution_failed _ _ rfl).2.2

/-- C5 witness: the three failure modes at concrete inputs — missing
scan row (nothing observable), missing project row (FAILED with the
synthetic log entry), raising adapter (FAILED execution with
"runner_exception"). -/
theorem C5_failures_become_persisted_state_witness :
    (run_scan_sync ["workspaces"] "ghost" demoRunners
        { projects := [], scans := [], executions := [], nextExecId := 0 }
        { dirs := [], files := [] }
      = { db := { projects := [], scans := [], executions := [],
                  nextExecId := 0 },
          fs := { dirs := [], files := [] }, commits := [] }) ∧
    (run_scan_sync ["workspaces"] "s1" demoRunners demoNoProjectDB demoFS
      = { db := demoNoProjectDB.replaceScan { demoScan with
            status := ScanStatus.FAILED
            finished_at := some 0
            logs := some [{ tool := "runner",
                            status := some ToolExecutionStatus.FAILED.value,
                            error := some "'NoneType' object has no attribute 'id'" }] }
          fs := (load_scan_context ["workspaces"] demoNoProjectDB "s1" demoFS).1
          commits := [demoNoProjectDB.replaceScan { demoScan with
            status := ScanStatus.FAILED
            finished_at := some 0
            logs := some [{ tool := "runner",
                            status := some ToolExecutionStatus.FAILED.value,
                            error := some "'NoneType' object has no attribute 'id'" }] }] }) ∧
    (∃ e2, (process_execution demoRunners (demoExecDB, 0, []) 7).1.executions.find?
        (fun x => decide (x.id = demoExec.id)) = some e2 ∧
      e2.status = ToolExecutionStatus.FAILED ∧
      e2.error = some "boom" ∧
      e2.failure_reason = some (pyOrStr
        (demoThrower (mark_execution_running 0 demoExec).2).exec.failure_reason
        "runner_exception")) :=
  ⟨C5_failures_become_persisted_state.1 ["workspaces"] "ghost" demoRunners
      _ _ (by decide),
   C5_failures_become_persisted_state.2.1 ["workspaces"] "s1" demoRunners
      demoNoProjectDB demoFS "'NoneType' object has no attribute 'id'"
      demoScan (by decide) (by decide),
   C5_failures_become_persisted_state.2.2 demoRunners demoExecDB 0 [] 7
      demoExec demoThrower "boom" (by decide) rfl rfl⟩
